import Mathlib

/-!
Verification development for the map-print PDF layout engine.

The definitions below are a shallow embedding of the layout subsystem:
`src/pdf/styles.js`, `src/pdf/pdfCreator.js` (and its TypeScript variant),
`src/pdf/pdfHelper.ts` and the legend pagination of `pdfLegendHelper`.
All physical quantities (inches, points) are represented as exact rationals.
External font metrics (the number of lines `splitTextToSize` produces, the
measured width `getTextWidth` returns, the intrinsic aspect ratio of a
decoded image) are inputs of the model, since they are computed by the
jsPDF backend and the DOM, not by this repository.
-/

namespace MapPrint

/-- Page orientation, `OrientationOptions` of `configManager`. -/
inductive Orientation
  | portrait
  | landscape
deriving DecidableEq, Repr

/-- Modelled from the spec: the named standard page formats.  The module
`standardPageSizes.js` is not among the sources at hand (only its callers
are); the README and the config editor list the supported formats
A5, A4, A3, A2. -/
inductive Format
  | A2
  | A3
  | A4
  | A5
deriving DecidableEq, Repr

/-- Modelled from the spec: `pageSizes[format]` is the `[shortEdge, longEdge]`
pair of the format in inches (ISO 216 sizes rounded to tenths of an inch);
a portrait page is `(short, long)`, a landscape page swaps the pair. -/
def pageSizes : Format → ℚ × ℚ
  | .A2 => (165 / 10, 234 / 10)
  | .A3 => (117 / 10, 165 / 10)
  | .A4 => (83 / 10, 117 / 10)
  | .A5 => (58 / 10, 83 / 10)

/-- The flat style sheet of `styles.js`.  `pageMargins0 .. pageMargins3` are
the four entries of the `pageMargins` array. -/
structure PageStyle where
  pageMargins0 : ℚ
  pageMargins1 : ℚ
  pageMargins2 : ℚ
  pageMargins3 : ℚ
  elementMargin : ℚ
  logoScale : ℚ
  titleFontWeight : ℚ
  titleFontSize : ℚ
  titleWidthPortionPortrait : ℚ
  titleWidthPortionLandscape : ℚ
  titleMaxLineCountPortrait : ℕ
  titleMaxLineCountLandscape : ℕ
  descriptionFontWeight : ℚ
  descriptionFontSize : ℚ
  descriptionLineHeight : ℚ
  descriptionMaxLineCountPortrait : ℕ
  descriptionMaxLineCountLandscape : ℕ
  infoFontWeight : ℚ
  infoFontSize : ℚ
  infoWidthPortionPortrait : ℚ
  infoWidthPortionLandscape : ℚ
deriving DecidableEq, Repr

/-- `pageStyles.default` of `styles.js`. -/
def pageStylesDefault : PageStyle where
  pageMargins0 := 4 / 10
  pageMargins1 := 4 / 10
  pageMargins2 := 4 / 10
  pageMargins3 := 4 / 10
  elementMargin := 4 / 10
  logoScale := 12 / 10
  titleFontWeight := 700
  titleFontSize := 20
  titleWidthPortionPortrait := 1 / 2
  titleWidthPortionLandscape := 3 / 4
  titleMaxLineCountPortrait := 2
  titleMaxLineCountLandscape := 1
  descriptionFontWeight := 400
  descriptionFontSize := 11
  descriptionLineHeight := 5 / 4
  descriptionMaxLineCountPortrait := 15
  descriptionMaxLineCountLandscape := 8
  infoFontWeight := 400
  infoFontSize := 10
  infoWidthPortionPortrait := 1 / 2
  infoWidthPortionLandscape := 1 / 4

/-- The `pageStyles.A5` partial sheet of `styles.js`, applied to a target
sheet key by key, exactly the keys the A5 record declares. -/
def applyA5Overrides (s : PageStyle) : PageStyle :=
  { s with
    elementMargin := 3 / 10
    descriptionFontSize := 8
    descriptionLineHeight := 23 / 20
    infoFontSize := 8
    infoWidthPortionLandscape := 3 / 10
    titleFontSize := 14 }

/-- Whether `pageStyles[format]` is a defined (truthy) key of `styles.js`:
only the `A5` sheet exists besides `default`. -/
def hasOverrideSheet : Format → Bool
  | .A5 => true
  | _ => false

/-- The mutable module state of `styles.js`: the object currently stored
under `pageStyles.default`.  (The per-format override sheets are constant
records and are never written to.) -/
structure StyleTables where
  defaultSheet : PageStyle
deriving DecidableEq, Repr

/-- The `pageStyles` tables as the module initially defines them. -/
def initialStyleTables : StyleTables := ⟨pageStylesDefault⟩

/-- The style resolution of `setup` (`pdfCreator.js` lines 56-63):
`this.formatting = Object.assign(pageStyles.default, pageStyles[format])`
when the format has an override sheet, else `pageStyles.default`.
`Object.assign` returns its first argument after copying the override keys
onto it, i.e. it mutates the stored default sheet in place; the function
returns the resolved sheet together with the table state afterwards. -/
def resolveFormatting (t : StyleTables) (f : Format) : PageStyle × StyleTables :=
  if hasOverrideSheet f then
    let merged := applyA5Overrides t.defaultSheet
    (merged, ⟨merged⟩)
  else
    (t.defaultSheet, t)

/-- The sheet a single `setup` on a fresh module state observes for a
format (used by the placement model; the mutation of the tables across
successive setups is treated separately). -/
def resolvedStyle (f : Format) : PageStyle :=
  (resolveFormatting initialStyleTables f).1

/-- A computed element placement: upper-left corner plus size, in inches,
origin at the upper-left corner of the page. -/
structure Rect where
  x : ℚ
  y : ℚ
  width : ℚ
  height : ℚ
deriving DecidableEq, Repr

/-- Number of keys of `contactKeysPattern` in `configManager.ts`
(department, name, streetAddress, zipAndCity, country, mail, phone, fax). -/
def contactKeysCount : ℕ := 8

/-- `PDFCreator.JSPDF_PPI`. -/
def JSPDF_PPI : ℚ := 72

/-- The input of one `PDFCreator.setup` call, with the externally computed
text metrics made explicit:
* `titleRaw` - when the title is present, the number of lines
  `splitTextToSize` returns for it at the title width;
* `logoAspect` - when the logo is present, its `width / height`;
* `descRaw` - like `titleRaw`, for the description;
* `copyrightWrap` - when the copyright is present, the pair of the wrapped
  line count and the widest `getTextWidth` measurement of the wrapped lines;
* `imgRatio` - the aspect ratio of the screenshot. -/
structure Config where
  format : Format
  orientation : Orientation
  titleRaw : Option ℕ
  logoAspect : Option ℚ
  contact : Bool
  mapInfo : Bool
  descRaw : Option ℕ
  copyrightWrap : Option (ℕ × ℚ)
  imgRatio : ℚ
deriving DecidableEq, Repr

/-- The style sheet the setup resolves for the config. -/
def Config.fmt (c : Config) : PageStyle := resolvedStyle c.format

/-- `this.pdfSize.width`: the page width after the orientation swap. -/
def Config.pdfWidth (c : Config) : ℚ :=
  match c.orientation with
  | .portrait => (pageSizes c.format).1
  | .landscape => (pageSizes c.format).2

/-- `this.pdfSize.height`: the page height after the orientation swap. -/
def Config.pdfHeight (c : Config) : ℚ :=
  match c.orientation with
  | .portrait => (pageSizes c.format).2
  | .landscape => (pageSizes c.format).1

/-- `this.maxLineWidth = pdfSize.width - pageMargins[1] - pageMargins[3]`. -/
def Config.maxLineWidth (c : Config) : ℚ :=
  c.pdfWidth - c.fmt.pageMargins1 - c.fmt.pageMargins3

/-- `title.widthPortion.<orientation>` lookup. -/
def PageStyle.titleWidthPortion (s : PageStyle) : Orientation → ℚ
  | .portrait => s.titleWidthPortionPortrait
  | .landscape => s.titleWidthPortionLandscape

/-- `title.maxLineCount.<orientation>` lookup. -/
def PageStyle.titleMaxLineCount (s : PageStyle) : Orientation → ℕ
  | .portrait => s.titleMaxLineCountPortrait
  | .landscape => s.titleMaxLineCountLandscape

/-- `description.maxLineCount.<orientation>` lookup. -/
def PageStyle.descMaxLineCount (s : PageStyle) : Orientation → ℕ
  | .portrait => s.descriptionMaxLineCountPortrait
  | .landscape => s.descriptionMaxLineCountLandscape

/-- `info.widthPortion.<orientation>` lookup. -/
def PageStyle.infoWidthPortion (s : PageStyle) : Orientation → ℚ
  | .portrait => s.infoWidthPortionPortrait
  | .landscape => s.infoWidthPortionLandscape

/-- Line height in inches of one line under the `title` text style:
`getLineHeight() / JSPDF_PPI` with `getLineHeight = fontSize *
lineHeightFactor` and the 1.15 fallback factor of `_setTextStyle` (the
sheets declare no `title.lineHeight` key). -/
def titleLineHeight (s : PageStyle) : ℚ :=
  s.titleFontSize * (23 / 20) / JSPDF_PPI

/-- Line height in inches of one line under the `info` text style
(1.15 fallback factor, no `info.lineHeight` key). -/
def infoLineHeight (s : PageStyle) : ℚ :=
  s.infoFontSize * (23 / 20) / JSPDF_PPI

/-- Line height in inches of one line under the `description` text style. -/
def descLineHeight (s : PageStyle) : ℚ :=
  s.descriptionFontSize * s.descriptionLineHeight / JSPDF_PPI

/-- Line height in inches of one copyright line: `_calcCopyrightPlacement`
forces `setFontSize(6)` while the `info` line height factor 1.15 stays
active. -/
def copyrightLineHeight : ℚ := 6 * (23 / 20) / JSPDF_PPI

/-- `_calcTotalLineHeight`: total height in inches of `numberLines` lines
at the given per-line height. -/
def calcTotalLineHeight (lineHeightInches : ℚ) (numberLines : ℚ) : ℚ :=
  lineHeightInches * numberLines

/-- `_calcElementWidth`: `maxLineWidth * portion - elementMargin / 2`. -/
def calcElementWidth (maxLineWidth portion elementMargin : ℚ) : ℚ :=
  maxLineWidth * portion - elementMargin / 2

/-- `this.title.length` after `titleArray.slice(0, maxLineCount)`. -/
def Config.titleCount (c : Config) : Option ℕ :=
  c.titleRaw.map fun n => min n (c.fmt.titleMaxLineCount c.orientation)

/-- `this.description.length` after `descriptionArray.slice(0, maxLineCount)`. -/
def Config.descCount (c : Config) : Option ℕ :=
  c.descRaw.map fun n => min n (c.fmt.descMaxLineCount c.orientation)

/-- `_calcTitlePlacement` as invoked from `setup` (width from
`_calcElementWidth` of the orientation portion, `maxLineCount` from the
sheet, `this.title.length` the sliced line count). -/
def titlePlacement (c : Config) : Option Rect :=
  c.titleRaw.map fun n =>
    let s := c.fmt
    let tlh := titleLineHeight s
    let width := calcElementWidth c.maxLineWidth (s.titleWidthPortion c.orientation) s.elementMargin
    let maxLineCount : ℚ := s.titleMaxLineCount c.orientation
    let len : ℚ := ((min n (s.titleMaxLineCount c.orientation) : ℕ) : ℚ)
    { x := s.pageMargins3
      y := s.pageMargins0 + calcTotalLineHeight tlh maxLineCount / 2
             - calcTotalLineHeight tlh len / 2
      width := width
      height := calcTotalLineHeight tlh maxLineCount / 2
                  + calcTotalLineHeight tlh len / 2 }

/-- `_calcLogoPlacement`: print height is `logo.scale` title line heights,
width follows the intrinsic aspect ratio, right-aligned against
`pageMargins[3]`, vertically centered against the title band. -/
def logoPlacement (c : Config) : Option Rect :=
  c.logoAspect.map fun aspectRatio =>
    let s := c.fmt
    let printHeight := calcTotalLineHeight (titleLineHeight s) s.logoScale
    { x := c.pdfWidth - s.pageMargins3 - printHeight * aspectRatio
      y := s.pageMargins0
             + calcTotalLineHeight (titleLineHeight s) (s.titleMaxLineCount c.orientation) / 2
             - printHeight / 2
      width := printHeight * aspectRatio
      height := printHeight }

/-- `_calcContactPlacement`: anchored to the bottom-left margins, height
is `contactKeysCount + 1` info line heights. -/
def contactPlacement (c : Config) : Option Rect :=
  if c.contact then
    let s := c.fmt
    some
      { x := s.pageMargins3
        y := c.pdfHeight - s.pageMargins2
               - calcTotalLineHeight (infoLineHeight s) (contactKeysCount + 1)
        width := calcElementWidth c.maxLineWidth (s.infoWidthPortion c.orientation) s.elementMargin
        height := calcTotalLineHeight (infoLineHeight s) (contactKeysCount + 1) }
  else none

/-- `_calcMapInfoPlacement`: same bottom band as contact; placed right of
the contact block (orientation-dependent gap) or at the left margin. -/
def mapInfoPlacement (c : Config) : Option Rect :=
  if c.mapInfo then
    let s := c.fmt
    let xMargin := match c.orientation with
      | .portrait => s.elementMargin
      | .landscape => s.elementMargin / 2
    let x := match contactPlacement c with
      | some cp => cp.x + cp.width + xMargin
      | none => s.pageMargins3
    some
      { x := x
        y := c.pdfHeight - s.pageMargins2
               - calcTotalLineHeight (infoLineHeight s) (contactKeysCount + 1)
        width := calcElementWidth c.maxLineWidth (s.infoWidthPortion c.orientation) s.elementMargin
        height := calcTotalLineHeight (infoLineHeight s) (contactKeysCount + 1) }
  else none

/-- The description width computed inline in `setup`: the full printable
width, narrowed in landscape by one or two `info.widthPortion.landscape`
shares depending on which of contact / map-info are present. -/
def descriptionWidth (c : Config) : ℚ :=
  let s := c.fmt
  let base := c.maxLineWidth
  match c.orientation with
  | .portrait => base
  | .landscape =>
      if c.contact && c.mapInfo then
        base * (1 - 2 * s.infoWidthPortionLandscape)
      else if c.contact != c.mapInfo then
        base * (1 - s.infoWidthPortionLandscape)
      else base

/-- `_calcDescriptionPlacement`. -/
def descriptionPlacement (c : Config) : Option Rect :=
  c.descRaw.map fun n =>
    let s := c.fmt
    let width := descriptionWidth c
    let len : ℚ := ((min n (s.descMaxLineCount c.orientation) : ℕ) : ℚ)
    match c.orientation with
    | .portrait =>
        let lowerBorder :=
          match contactPlacement c with
          | some cp => cp.y
          | none =>
            match mapInfoPlacement c with
            | some mp => mp.y
            | none => c.pdfHeight - s.pageMargins2
        let height := calcTotalLineHeight (descLineHeight s) len + s.elementMargin
        { x := s.pageMargins3, y := lowerBorder - height, width := width, height := height }
    | .landscape =>
        let lowerBorder := c.pdfHeight - s.pageMargins2
        let height :=
          match contactPlacement c with
          | some cp => cp.height
          | none =>
            match mapInfoPlacement c with
            | some mp => mp.height
            | none => calcTotalLineHeight (descLineHeight s) len
        { x := c.pdfWidth - s.pageMargins1 - width, y := lowerBorder - height
          width := width, height := height }

/-- The `upperBorder` local of `_calcImagePlacement`. -/
def imgUpperBorder (c : Config) : ℚ :=
  match titlePlacement c with
  | some tp => tp.y + tp.height + c.fmt.elementMargin
  | none =>
    match logoPlacement c with
    | some lp => lp.y + lp.height + c.fmt.elementMargin
    | none => c.fmt.pageMargins0

/-- The `lowerBorder` local of `_calcImagePlacement`.  Note the final
fallback of the source is `this.formatting.pageMargins[2]` - the margin
value itself, not `pdfSize.height - pageMargins[2]`. -/
def imgLowerBorder (c : Config) : ℚ :=
  match descriptionPlacement c with
  | some dp => dp.y - c.fmt.elementMargin
  | none =>
    match contactPlacement c with
    | some cp => cp.y - c.fmt.elementMargin
    | none =>
      match mapInfoPlacement c with
      | some mp => mp.y - c.fmt.elementMargin
      | none => c.fmt.pageMargins2

/-- The JavaScript comparison `aspectRatio < width / height` under IEEE
semantics: for `height = 0` the quotient is `±Infinity` (or `NaN` when
`width = 0`, and every comparison with `NaN` is false), so the comparison
holds exactly when `0 < width`; for nonzero `height` it is the exact
rational comparison. -/
def jsLtDiv (aspectRatio width height : ℚ) : Bool :=
  if height = 0 then decide (0 < width) else decide (aspectRatio < width / height)

/-- `_calcImagePlacement`: the band between the borders is filled at the
requested aspect ratio; if the ratio is below the band ratio the width is
shrunk and the image horizontally centered on the page, otherwise the
height is shrunk (top edge staying at the upper border). -/
def imgPlacement (c : Config) : Rect :=
  let s := c.fmt
  let upperBorder := imgUpperBorder c
  let lowerBorder := imgLowerBorder c
  let height := lowerBorder - upperBorder
  let width := c.maxLineWidth
  if jsLtDiv c.imgRatio width height then
    { x := c.pdfWidth / 2 - height * c.imgRatio / 2
      y := upperBorder
      width := height * c.imgRatio
      height := height }
  else
    { x := s.pageMargins3
      y := upperBorder
      width := width
      height := width / c.imgRatio }

/-- `_calcCopyrightPlacement`: the wrapped text block of the given line
count and measured width, aligned to the bottom-right corner of the image
placement. -/
def copyrightPlacement (c : Config) : Option Rect :=
  c.copyrightWrap.map fun nw =>
    let ip := imgPlacement c
    let height := calcTotalLineHeight copyrightLineHeight nw.1
    { x := ip.x + ip.width - nw.2
      y := ip.y + ip.height - height
      width := nw.2
      height := height }

/-- The seven first-page elements whose placements `setup` computes. -/
inductive Elem
  | title
  | logo
  | contact
  | mapInfo
  | description
  | img
  | copyright
deriving DecidableEq, Repr

/-- The placement `setup` stores for an element, `none` when the element
is absent from the config (the image placement is always computed). -/
def placementOf (c : Config) : Elem → Option Rect
  | .title => titlePlacement c
  | .logo => logoPlacement c
  | .contact => contactPlacement c
  | .mapInfo => mapInfoPlacement c
  | .description => descriptionPlacement c
  | .img => some (imgPlacement c)
  | .copyright => copyrightPlacement c

/-- Two placements overlap when their interiors intersect. -/
def overlaps (a b : Rect) : Prop :=
  max a.x b.x < min (a.x + a.width) (b.x + b.width) ∧
    max a.y b.y < min (a.y + a.height) (b.y + b.height)

instance (a b : Rect) : Decidable (overlaps a b) := by
  unfold overlaps; infer_instance

/-- `inner` lies within `outer`. -/
def withinRect (inner outer : Rect) : Prop :=
  outer.x ≤ inner.x ∧ inner.x + inner.width ≤ outer.x + outer.width ∧
    outer.y ≤ inner.y ∧ inner.y + inner.height ≤ outer.y + outer.height

/-!
The draw phase (`PDFCreator.create`).  Drawing calls on the jsPDF backend
are recorded as an abstract operation list; only the precondition check at
the top of `create` and the order of the drawing calls are modelled.
-/

/-- One drawing call `create` issues on the jsPDF document. -/
inductive DrawOp
  | titleText (r : Rect)
  | mainImage (r : Rect)
  | copyrightRect (r : Rect)
  | copyrightText (r : Rect)
  | logoImage (r : Rect)
  | contactText (r : Rect)
  | mapInfoText (r : Rect)
  | descriptionText (r : Rect)
deriving DecidableEq, Repr

/-- The drawing calls of `create` in source order, for an initialized
instance whose setup computed the placements of `cfg`. -/
def renderOps (c : Config) : List DrawOp :=
  (match titlePlacement c with
    | some tp => [DrawOp.titleText tp]
    | none => [])
  ++ [DrawOp.mainImage (imgPlacement c)]
  ++ (match copyrightPlacement c with
    | some cp => [DrawOp.copyrightRect cp, DrawOp.copyrightText cp]
    | none => [])
  ++ (match logoPlacement c with
    | some lp => [DrawOp.logoImage lp]
    | none => [])
  ++ (match contactPlacement c with
    | some cp => [DrawOp.contactText cp]
    | none => [])
  ++ (match mapInfoPlacement c with
    | some mp => [DrawOp.mapInfoText mp]
    | none => [])
  ++ (match descriptionPlacement c with
    | some dp => [DrawOp.descriptionText dp]
    | none => [])

/-- The error message of the `create` precondition check. -/
def initMessage : String :=
  "pdfCreator instance needs first to be initialized by calling init method."

/-- A `PDFCreator` instance: `none` before `setup` has completed
(`this.initialized` still falsy), `some cfg` once `setup(cfg)` has run and
set `this.initialized = true` with the placements of `cfg` stored. -/
def CreatorState : Type := Option Config

/-- `create`: throws the initialization error when `setup` has not
completed, otherwise issues the drawing calls and returns the document. -/
def create (st : CreatorState) : Except String (List DrawOp) :=
  match st with
  | none => .error initMessage
  | some cfg => .ok (renderOps cfg)

/-!
The legend data (`pdfHelper.ts` / `parseLegend`) and the legend pagination
(`pdfLegendHelper` / `addLayerLegend`, `renderStyleLegend`).  The rendered
height of an item and the internal column breaks of a style grid depend on
external image decoding and font metrics, so they are inputs of the model.
-/

/-- `StyleRowType` of the UI library, the kinds a style legend row takes. -/
inductive StyleRowTypeM
  | stroke
  | fill
  | circle
  | icon
  | shape
  | text
deriving DecidableEq, Repr

/-- The kind of a legend item (`LegendType` of the UI library). -/
inductive LegendTypeM
  | image
  | style
  | iframe
deriving DecidableEq, Repr

/-- A legend item as the paginator sees it:
* an image item carries its decoded natural height in pixels and the height
  `sizeAndPrintImage` ends up printing (0 when decoding failed);
* a style item carries its rows, the number of column breaks
  `renderStyleLegend` performs internally, and the grid height it returns;
* an iframe item carries nothing (it is never renderable). -/
inductive LegendItemM
  | image (naturalHeight : ℚ) (renderedHeight : ℚ)
  | style (rows : List StyleRowTypeM) (innerBreaks : ℕ) (renderedHeight : ℚ)
  | iframe
deriving DecidableEq, Repr

/-- `item.type`. -/
def LegendItemM.type : LegendItemM → LegendTypeM
  | .image _ _ => .image
  | .style _ _ _ => .style
  | .iframe => .iframe

/-- `isImageLegendItem` of `pdfHelper.ts`. -/
def isImageLegendItem (l : LegendItemM) : Bool := l.type = LegendTypeM.image

/-- `isStyleLegendItem` of `pdfHelper.ts`. -/
def isStyleLegendItem (l : LegendItemM) : Bool := l.type = LegendTypeM.style

/-- A `LegendEntry`: a layer title and its legend items. -/
structure LegendEntryM where
  title : String
  legend : List LegendItemM
deriving DecidableEq, Repr

/-- `parseLegend` of `pdfHelper.ts`: per entry keep only the image / style
items (the filter predicate calls `notifyIframeNotSupported`, which emits
one notification and returns `false`, for every other item), then drop the
entries left with no items.  Returns the printable groups together with the
titles for which notifications were emitted, one per dropped item. -/
def parseLegend (entries : List LegendEntryM) :
    List (String × List LegendItemM) × List String :=
  ((entries.map fun e =>
      (e.title, e.legend.filter fun l => isImageLegendItem l || isStyleLegendItem l)).filter
      fun g => !g.2.isEmpty,
   entries.flatMap fun e =>
     (e.legend.filter fun l => !(isImageLegendItem l || isStyleLegendItem l)).map
       fun _ => e.title)

/-- The warning `renderStyleLegend` logs for a text-kind row. -/
def textRowWarning : String :=
  "Legend items of type text are not yet supported and will be omitted."

/-- The `config` argument of `addLayerLegend` plus the formatting values it
reads (`elementMargin`, `pageMargins`). -/
structure LegendRunConfig where
  originX : ℚ
  originY : ℚ
  sizeW : ℚ
  sizeH : ℚ
  useColumns : Bool
  pageMargin1 : ℚ
  pageMargin2 : ℚ
  pageMargin3 : ℚ
  elementMargin : ℚ
deriving DecidableEq, Repr

/-- The `dimensions` record of `addLayerLegend`: the height below the group
title and the (possibly half-page) column width. -/
def legendDims (cfg : LegendRunConfig) : ℚ × ℚ :=
  (cfg.sizeH - cfg.originY - cfg.pageMargin2,
   if cfg.useColumns then cfg.sizeW / 2 - cfg.pageMargin1 - cfg.pageMargin3
   else cfg.sizeW - cfg.pageMargin1 - cfg.pageMargin3)

/-- The running cursor of the legend paginator: `lsSide` (`true` = right),
`currentPos`, `currentSize` and the number of pages emitted so far. -/
structure LegendCursor where
  sideRight : Bool
  posX : ℚ
  posY : ℚ
  remH : ℚ
  remW : ℚ
  pageCount : ℕ
deriving DecidableEq, Repr

/-- The cursor right after `initSizeAndPosition` on the group page. -/
def initialLegendCursor (cfg : LegendRunConfig) : LegendCursor :=
  { sideRight := false
    posX := cfg.originX
    posY := cfg.originY
    remH := (legendDims cfg).1
    remW := (legendDims cfg).2
    pageCount := 1 }

/-- `nextPage` of `addLayerLegend`: reset the remaining size, toggle the
side; in two-column mode when the new side is the right one, move to the
right half of the same page, otherwise add a page and return to the
origin. -/
def legendNextPage (cfg : LegendRunConfig) (c : LegendCursor) : LegendCursor :=
  let side := !c.sideRight
  if cfg.useColumns && side then
    { c with
      sideRight := side
      remH := (legendDims cfg).1
      remW := (legendDims cfg).2
      posX := cfg.originX + cfg.sizeW / 2
      posY := cfg.originY }
  else
    { c with
      sideRight := side
      remH := (legendDims cfg).1
      remW := (legendDims cfg).2
      posX := cfg.originX
      posY := cfg.originY
      pageCount := c.pageCount + 1 }

/-- `updateSizeAndPosition`: consume the element height plus the margin. -/
def legendConsume (cfg : LegendRunConfig) (elementHeight : ℚ)
    (c : LegendCursor) : LegendCursor :=
  { c with
    remH := c.remH - (elementHeight + cfg.elementMargin)
    posY := c.posY + elementHeight + cfg.elementMargin }

/-- The heuristic of the image branch: force a break when the image at 80%
of its natural height would still not fit and more than a third of the
column height is already consumed. -/
def imageBreakCond (cfg : LegendRunConfig) (naturalHeight : ℚ)
    (c : LegendCursor) : Bool :=
  decide (naturalHeight / JSPDF_PPI * (8 / 10) > c.remH) &&
    decide (c.posY - cfg.originY > (legendDims cfg).1 / 3)

/-- The outcome of running the item loop of `addLayerLegend`: the final
cursor, the remaining column height observed at the moment each item was
placed, the warnings logged, and the error that aborted the loop, if any. -/
structure LegendRunResult where
  cursor : LegendCursor
  placements : List ℚ
  warnings : List String
  err : Option String
deriving DecidableEq, Repr

/-- The item loop of `addLayerLegend`: before each item, break when the
remaining column height is exhausted; style items render their grid
(logging a warning per text row, breaking columns internally as counted),
image items may force an extra break via the 80%-height heuristic; any
other item kind throws. -/
def runLegendItems (cfg : LegendRunConfig) :
    LegendCursor → List LegendItemM → LegendRunResult
  | c, [] => ⟨c, [], [], none⟩
  | c, item :: rest =>
    let c1 := if c.remH ≤ 0 then legendNextPage cfg c else c
    match item with
    | .iframe => ⟨c1, [], [], some "iframe is not supported"⟩
    | .style rows innerBreaks renderedHeight =>
        let c2 := (legendNextPage cfg)^[innerBreaks] c1
        let r := runLegendItems cfg (legendConsume cfg renderedHeight c2) rest
        ⟨r.cursor, c1.remH :: r.placements,
          ((rows.filter fun row => row == StyleRowTypeM.text).map
            fun _ => textRowWarning) ++ r.warnings,
          r.err⟩
    | .image naturalHeight renderedHeight =>
        let c2 := if imageBreakCond cfg naturalHeight c1 then legendNextPage cfg c1 else c1
        let r := runLegendItems cfg (legendConsume cfg renderedHeight c2) rest
        ⟨r.cursor, c2.remH :: r.placements, r.warnings, r.err⟩

/-!
`getCopyright` of `pdfHelper.ts`: attribution entries are turned into
provider/year strings, empty ones dropped, duplicates removed (`Set`
keeps first occurrences), the rest joined with the three-character
separator, and a trailing-separator trim is attempted by comparing the
last character with the two-character string.
-/

/-- One attribution record: `provider` and `year` as the JS code sees them
(`none` models `undefined`; the empty string is falsy like `undefined`). -/
structure AttributionM where
  provider : Option String
  year : Option String
deriving DecidableEq, Repr

/-- `entry.attributions`: either an array or a single record. -/
inductive AttributionsM
  | arr (l : List AttributionM)
  | single (a : AttributionM)
deriving DecidableEq, Repr

/-- One entry of `getAttributions(app).entries`. -/
structure AttributionEntryM where
  attributions : AttributionsM
deriving DecidableEq, Repr

/-- The string built for one attribution record:
`year ? \x7b@ provider year\x7d : \x7b@ provider\x7d` when the provider is
truthy, `empty` otherwise. -/
def attributionText (a : AttributionM) : String :=
  match a.provider with
  | some p =>
      if p = "" then ""
      else
        match a.year with
        | some y => if y = "" then "@ " ++ p else "@ " ++ p ++ " " ++ y
        | none => "@ " ++ p
  | none => ""

/-- The string built for one entry: first array element (or an empty record
when the array is empty) or the single record. -/
def entryText (e : AttributionEntryM) : String :=
  match e.attributions with
  | .arr l =>
      match l.head? with
      | some a => attributionText a
      | none => ""
  | .single a => attributionText a

/-- Helper for `dedupFirst`: drop the elements already seen. -/
def dedupFirstAux (seen : List String) : List String → List String
  | [] => []
  | a :: l =>
      if seen.contains a then dedupFirstAux seen l
      else a :: dedupFirstAux (a :: seen) l

/-- `[...new Set(l)]`: deduplication keeping first occurrences in order. -/
def dedupFirst (l : List String) : List String := dedupFirstAux [] l

/-- The JS guard `filtered[filtered.length - 1] === str2`: the single last
character of the string (when it exists) compared with a string. -/
def lastCharSelectorEq (s : String) (other : String) : Bool :=
  match s.toList.getLast? with
  | some ch => String.mk [ch] == other
  | none => false

/-- `filtered.slice(0, filtered.length - 2)`. -/
def sliceDropLastTwo (s : String) : String :=
  String.mk (s.toList.take (s.toList.length - 2))

/-- `getCopyright` of `pdfHelper.ts` given the attribution entries. -/
def getCopyright (entries : List AttributionEntryM) : String :=
  let copyright := (entries.map entryText).filter fun s => s ≠ ""
  let filtered := String.intercalate " | " (dedupFirst copyright)
  if lastCharSelectorEq filtered "| " then sliceDropLastTwo filtered else filtered

/-- The value the claim describes: the deduplicated non-empty entry strings
joined with the separator, with no trailing trim applied. -/
def getCopyrightNoTrim (entries : List AttributionEntryM) : String :=
  String.intercalate " | " (dedupFirst ((entries.map entryText).filter fun s => s ≠ ""))

/-!  Theorems. -/

/-- A rectangle entirely left of another does not overlap it. -/
lemma not_overlaps_of_left_le (a b : Rect) (h : a.x + a.width ≤ b.x) :
    ¬ overlaps a b := by
  rintro ⟨hx, -⟩
  have h1 : b.x ≤ max a.x b.x := le_max_right _ _
  have h2 : min (a.x + a.width) (b.x + b.width) ≤ a.x + a.width := min_le_left _ _
  linarith

/-- A rectangle entirely above another does not overlap it. -/
lemma not_overlaps_of_above (a b : Rect) (h : a.y + a.height ≤ b.y) :
    ¬ overlaps a b := by
  rintro ⟨-, hy⟩
  have h1 : b.y ≤ max a.y b.y := le_max_right _ _
  have h2 : min (a.y + a.height) (b.y + b.height) ≤ a.y + a.height := min_le_left _ _
  linarith

/-- Non-overlap is symmetric. -/
lemma not_overlaps_symm (a b : Rect) (h : ¬ overlaps a b) : ¬ overlaps b a := by
  rintro ⟨hx, hy⟩
  exact h ⟨by rwa [max_comm, min_comm], by rwa [max_comm, min_comm]⟩

/-- A rectangle inside a non-overlapping one does not overlap either. -/
lemma not_overlaps_of_within (r i x : Rect) (hw : withinRect r i)
    (h : ¬ overlaps i x) : ¬ overlaps r x := by
  rintro ⟨hx, hy⟩
  obtain ⟨h1, h2, h3, h4⟩ := hw
  refine h ⟨?_, ?_⟩
  · calc max i.x x.x ≤ max r.x x.x := max_le_max h1 (le_refl _)
      _ < min (r.x + r.width) (x.x + x.width) := hx
      _ ≤ min (i.x + i.width) (x.x + x.width) := min_le_min h2 (le_refl _)
  · calc max i.y x.y ≤ max r.y x.y := max_le_max h3 (le_refl _)
      _ < min (r.y + r.height) (x.y + x.height) := hy
      _ ≤ min (i.y + i.height) (x.y + x.height) := min_le_min h4 (le_refl _)

/-- The element margin of every resolved sheet is positive. -/
lemma em_pos (c : Config) : 0 < c.fmt.elementMargin := by
  rcases c with ⟨f, o, t, l, ct, mi, d, cw, r⟩
  cases f <;>
    norm_num [Config.fmt, resolvedStyle, resolveFormatting, hasOverrideSheet,
      initialStyleTables, pageStylesDefault, applyA5Overrides]

/-- The title line height of every resolved sheet is positive. -/
lemma tLH_pos (c : Config) : 0 < titleLineHeight c.fmt := by
  rcases c with ⟨f, o, t, l, ct, mi, d, cw, r⟩
  cases f <;>
    norm_num [Config.fmt, titleLineHeight, JSPDF_PPI, resolvedStyle, resolveFormatting,
      hasOverrideSheet, initialStyleTables, pageStylesDefault, applyA5Overrides]

/-- The info line height of every resolved sheet is positive. -/
lemma iLH_pos (c : Config) : 0 < infoLineHeight c.fmt := by
  rcases c with ⟨f, o, t, l, ct, mi, d, cw, r⟩
  cases f <;>
    norm_num [Config.fmt, infoLineHeight, JSPDF_PPI, resolvedStyle, resolveFormatting,
      hasOverrideSheet, initialStyleTables, pageStylesDefault, applyA5Overrides]

/-- The description line height of every resolved sheet is positive. -/
lemma dLH_pos (c : Config) : 0 < descLineHeight c.fmt := by
  rcases c with ⟨f, o, t, l, ct, mi, d, cw, r⟩
  cases f <;>
    norm_num [Config.fmt, descLineHeight, JSPDF_PPI, resolvedStyle, resolveFormatting,
      hasOverrideSheet, initialStyleTables, pageStylesDefault, applyA5Overrides]

/-- The info width portion of every resolved sheet is positive. -/
lemma infoPortion_pos (c : Config) : 0 < c.fmt.infoWidthPortion c.orientation := by
  rcases c with ⟨f, o, t, l, ct, mi, d, cw, r⟩
  cases f <;> cases o <;>
    norm_num [Config.fmt, PageStyle.infoWidthPortion, resolvedStyle, resolveFormatting,
      hasOverrideSheet, initialStyleTables, pageStylesDefault, applyA5Overrides]

/-- Half the logo print height stays within half the title band plus one
element margin, for every format and orientation. -/
lemma logoScale_bound (c : Config) :
    titleLineHeight c.fmt * c.fmt.logoScale / 2
      ≤ titleLineHeight c.fmt * (c.fmt.titleMaxLineCount c.orientation : ℚ) / 2
        + c.fmt.elementMargin := by
  rcases c with ⟨f, o, t, l, ct, mi, d, cw, r⟩
  cases f <;> cases o <;>
    norm_num [Config.fmt, titleLineHeight, JSPDF_PPI, PageStyle.titleMaxLineCount,
      resolvedStyle, resolveFormatting, hasOverrideSheet, initialStyleTables,
      pageStylesDefault, applyA5Overrides]

/-- The left and right page margins of every resolved sheet agree. -/
lemma pageMargins13_eq (f : Format) :
    (resolvedStyle f).pageMargins1 = (resolvedStyle f).pageMargins3 := by
  cases f <;> rfl

/-- The printable width is positive for every format and orientation. -/
lemma maxLineWidth_pos (c : Config) : 0 < c.maxLineWidth := by
  rcases c with ⟨f, o, t, l, ct, m, d, cw, r⟩
  cases f <;> cases o <;>
    norm_num [Config.maxLineWidth, Config.pdfWidth, Config.fmt, resolvedStyle,
      resolveFormatting, hasOverrideSheet, initialStyleTables, pageStylesDefault,
      applyA5Overrides, pageSizes]

/-- The master vertical budget: top margin, full title band, three element
margins, the maximal description block, the contact/map-info band and the
bottom margin together stay strictly inside the page height, for every
format and orientation. -/
lemma vertical_master (c : Config) :
    c.fmt.pageMargins0
      + titleLineHeight c.fmt * (c.fmt.titleMaxLineCount c.orientation : ℚ)
      + 3 * c.fmt.elementMargin
      + (descLineHeight c.fmt * (c.fmt.descMaxLineCount c.orientation : ℚ)
          + c.fmt.elementMargin)
      + infoLineHeight c.fmt * ((contactKeysCount : ℚ) + 1)
      + c.fmt.pageMargins2
    < c.pdfHeight := by
  rcases c with ⟨f, o, t, l, ct, mi, d, cw, r⟩
  cases f <;> cases o <;>
    norm_num [Config.fmt, Config.pdfHeight, titleLineHeight, infoLineHeight,
      descLineHeight, JSPDF_PPI, PageStyle.titleMaxLineCount, PageStyle.descMaxLineCount,
      contactKeysCount, pageSizes, resolvedStyle, resolveFormatting, hasOverrideSheet,
      initialStyleTables, pageStylesDefault, applyA5Overrides]

/-- The title placement lower edge is the fixed title band bottom,
independent of the wrapped line count. -/
lemma title_bottom_eq (c : Config) (tp : Rect) (ht : titlePlacement c = some tp) :
    tp.y + tp.height
      = c.fmt.pageMargins0
        + titleLineHeight c.fmt * (c.fmt.titleMaxLineCount c.orientation : ℚ) := by
  obtain ⟨n, hn, rfl⟩ := Option.map_eq_some'.mp ht
  dsimp [calcTotalLineHeight]
  ring

/-- The title placement left edge and width. -/
lemma title_x_width (c : Config) (tp : Rect) (ht : titlePlacement c = some tp) :
    tp.x = c.fmt.pageMargins3 ∧
      tp.width = calcElementWidth c.maxLineWidth (c.fmt.titleWidthPortion c.orientation)
        c.fmt.elementMargin := by
  obtain ⟨n, hn, rfl⟩ := Option.map_eq_some'.mp ht
  exact ⟨rfl, rfl⟩

/-- The logo placement bottom edge stays within the title band plus one
element margin. -/
lemma logo_bottom_le (c : Config) (lp : Rect) (hl : logoPlacement c = some lp) :
    lp.y + lp.height
      ≤ c.fmt.pageMargins0
        + titleLineHeight c.fmt * (c.fmt.titleMaxLineCount c.orientation : ℚ)
        + c.fmt.elementMargin := by
  obtain ⟨ar, har, rfl⟩ := Option.map_eq_some'.mp hl
  dsimp [calcTotalLineHeight]
  have := logoScale_bound c
  linarith

/-- The logo placement right edge sits at the page width minus
`pageMargins[3]`. -/
lemma logo_x_eq (c : Config) (lp : Rect) (hl : logoPlacement c = some lp) :
    lp.x = c.pdfWidth - c.fmt.pageMargins3 - lp.width := by
  obtain ⟨ar, har, rfl⟩ := Option.map_eq_some'.mp hl
  rfl

/-- The contact placement in explicit form, when present. -/
lemma contactPlacement_some_eq (c : Config) (cp : Rect)
    (h : contactPlacement c = some cp) :
    cp = { x := c.fmt.pageMargins3
           y := c.pdfHeight - c.fmt.pageMargins2
                  - infoLineHeight c.fmt * ((contactKeysCount : ℚ) + 1)
           width := calcElementWidth c.maxLineWidth (c.fmt.infoWidthPortion c.orientation)
                  c.fmt.elementMargin
           height := infoLineHeight c.fmt * ((contactKeysCount : ℚ) + 1) } := by
  by_cases hc : c.contact
  · rw [contactPlacement, if_pos hc] at h
    simpa [calcTotalLineHeight] using h.symm
  · rw [contactPlacement, if_neg hc] at h
    exact absurd h (by simp)

/-- A present contact placement forces the contact flag. -/
lemma contact_true_of_some (c : Config) (cp : Rect)
    (h : contactPlacement c = some cp) : c.contact = true := by
  by_cases hc : c.contact
  · exact hc
  · rw [contactPlacement, if_neg hc] at h
    exact absurd h (by simp)

/-- The map-info placement vertical band and width, when present. -/
lemma mapInfo_y_height (c : Config) (mp : Rect)
    (h : mapInfoPlacement c = some mp) :
    mp.y = c.pdfHeight - c.fmt.pageMargins2
        - infoLineHeight c.fmt * ((contactKeysCount : ℚ) + 1) ∧
      mp.height = infoLineHeight c.fmt * ((contactKeysCount : ℚ) + 1) ∧
      mp.width = calcElementWidth c.maxLineWidth (c.fmt.infoWidthPortion c.orientation)
        c.fmt.elementMargin := by
  by_cases hm : c.mapInfo
  · rw [mapInfoPlacement, if_pos hm] at h
    obtain rfl := (Option.some.injEq _ _).mp h
    refine ⟨?_, ?_, ?_⟩ <;> dsimp [calcTotalLineHeight]
  · rw [mapInfoPlacement, if_neg hm] at h
    exact absurd h (by simp)

/-- A present map-info placement forces the map-info flag. -/
lemma mapInfo_true_of_some (c : Config) (mp : Rect)
    (h : mapInfoPlacement c = some mp) : c.mapInfo = true := by
  by_cases hm : c.mapInfo
  · exact hm
  · rw [mapInfoPlacement, if_neg hm] at h
    exact absurd h (by simp)

/-- The description placement never starts above the worst-case footer
stack: bottom margin, contact band, and the maximal description block. -/
lemma desc_y_ge (c : Config) (dp : Rect) (hd : descriptionPlacement c = some dp) :
    c.pdfHeight - c.fmt.pageMargins2
      - infoLineHeight c.fmt * ((contactKeysCount : ℚ) + 1)
      - (descLineHeight c.fmt * (c.fmt.descMaxLineCount c.orientation : ℚ)
          + c.fmt.elementMargin)
      ≤ dp.y := by
  obtain ⟨n, hn, rfl⟩ := Option.map_eq_some'.mp hd
  have hI : 0 < infoLineHeight c.fmt * ((contactKeysCount : ℚ) + 1) :=
    mul_pos (iLH_pos c) (by positivity)
  have hdc : descLineHeight c.fmt
        * ((min n (c.fmt.descMaxLineCount c.orientation) : ℕ) : ℚ)
      ≤ descLineHeight c.fmt * (c.fmt.descMaxLineCount c.orientation : ℚ) := by
    refine mul_le_mul_of_nonneg_left ?_ (dLH_pos c).le
    exact_mod_cast min_le_right n _
  have hem := em_pos c
  have hdnn : (0 : ℚ) ≤ descLineHeight c.fmt * (c.fmt.descMaxLineCount c.orientation : ℚ) :=
    mul_nonneg (dLH_pos c).le (Nat.cast_nonneg _)
  cases ho : c.orientation with
  | portrait =>
      rw [ho] at hdc hdnn
      dsimp only
      cases hcp : contactPlacement c with
      | some cp =>
          dsimp only
          rw [contactPlacement_some_eq c cp hcp]
          dsimp only [calcTotalLineHeight]
          ring_nf
          linarith
      | none =>
          cases hmp : mapInfoPlacement c with
          | some mp =>
              dsimp only
              rw [(mapInfo_y_height c mp hmp).1]
              dsimp only [calcTotalLineHeight]
              ring_nf
              linarith
          | none =>
              dsimp only [calcTotalLineHeight]
              ring_nf
              linarith
  | landscape =>
      rw [ho] at hdc hdnn
      dsimp only
      cases hcp : contactPlacement c with
      | some cp =>
          dsimp only
          rw [contactPlacement_some_eq c cp hcp]
          dsimp only [calcTotalLineHeight]
          ring_nf
          linarith
      | none =>
          cases hmp : mapInfoPlacement c with
          | some mp =>
              dsimp only
              rw [(mapInfo_y_height c mp hmp).2.1]
              ring_nf
              linarith
          | none =>
              dsimp only [calcTotalLineHeight]
              ring_nf
              linarith

/-- Title and logo do not overlap when the logo width leaves room for the
title on the printable line. -/
lemma sep_title_logo (c : Config) (tp lp : Rect)
    (ht : titlePlacement c = some tp) (hl : logoPlacement c = some lp)
    (hfit : tp.width + lp.width ≤ c.maxLineWidth) : ¬ overlaps tp lp := by
  apply not_overlaps_of_left_le
  have hx := (title_x_width c tp ht).1
  have hlx := logo_x_eq c lp hl
  have h13 := pageMargins13_eq c.format
  have hML : c.maxLineWidth = c.pdfWidth - c.fmt.pageMargins1 - c.fmt.pageMargins3 := rfl
  have h13' : c.fmt.pageMargins1 = c.fmt.pageMargins3 := h13
  rw [hx, hlx]
  ring_nf
  ring_nf at hfit hML
  linarith

/-- Title stays above the contact block. -/
lemma sep_title_contact (c : Config) (tp cp : Rect)
    (ht : titlePlacement c = some tp) (hcp : contactPlacement c = some cp) :
    ¬ overlaps tp cp := by
  apply not_overlaps_of_above
  rw [title_bottom_eq c tp ht, contactPlacement_some_eq c cp hcp]
  dsimp only
  have hmaster := vertical_master c
  have hem := em_pos c
  have hd : 0 ≤ descLineHeight c.fmt * (c.fmt.descMaxLineCount c.orientation : ℚ) :=
    mul_nonneg (dLH_pos c).le (Nat.cast_nonneg _)
  linarith

/-- Title stays above the map-info block. -/
lemma sep_title_mapInfo (c : Config) (tp mp : Rect)
    (ht : titlePlacement c = some tp) (hmp : mapInfoPlacement c = some mp) :
    ¬ overlaps tp mp := by
  apply not_overlaps_of_above
  rw [title_bottom_eq c tp ht, (mapInfo_y_height c mp hmp).1]
  have hmaster := vertical_master c
  have hem := em_pos c
  have hd : 0 ≤ descLineHeight c.fmt * (c.fmt.descMaxLineCount c.orientation : ℚ) :=
    mul_nonneg (dLH_pos c).le (Nat.cast_nonneg _)
  linarith

/-- Title stays above the description block. -/
lemma sep_title_desc (c : Config) (tp dp : Rect)
    (ht : titlePlacement c = some tp) (hd : descriptionPlacement c = some dp) :
    ¬ overlaps tp dp := by
  apply not_overlaps_of_above
  rw [title_bottom_eq c tp ht]
  have hge := desc_y_ge c dp hd
  have hmaster := vertical_master c
  have hem := em_pos c
  linarith

/-- Logo stays above the contact block. -/
lemma sep_logo_contact (c : Config) (lp cp : Rect)
    (hl : logoPlacement c = some lp) (hcp : contactPlacement c = some cp) :
    ¬ overlaps lp cp := by
  apply not_overlaps_of_above
  rw [contactPlacement_some_eq c cp hcp]
  dsimp only
  have hb := logo_bottom_le c lp hl
  have hmaster := vertical_master c
  have hem := em_pos c
  have hd : 0 ≤ descLineHeight c.fmt * (c.fmt.descMaxLineCount c.orientation : ℚ) :=
    mul_nonneg (dLH_pos c).le (Nat.cast_nonneg _)
  linarith

/-- Logo stays above the map-info block. -/
lemma sep_logo_mapInfo (c : Config) (lp mp : Rect)
    (hl : logoPlacement c = some lp) (hmp : mapInfoPlacement c = some mp) :
    ¬ overlaps lp mp := by
  apply not_overlaps_of_above
  rw [(mapInfo_y_height c mp hmp).1]
  have hb := logo_bottom_le c lp hl
  have hmaster := vertical_master c
  have hem := em_pos c
  have hd : 0 ≤ descLineHeight c.fmt * (c.fmt.descMaxLineCount c.orientation : ℚ) :=
    mul_nonneg (dLH_pos c).le (Nat.cast_nonneg _)
  linarith

/-- Logo stays above the description block. -/
lemma sep_logo_desc (c : Config) (lp dp : Rect)
    (hl : logoPlacement c = some lp) (hd : descriptionPlacement c = some dp) :
    ¬ overlaps lp dp := by
  apply not_overlaps_of_above
  have hb := logo_bottom_le c lp hl
  have hge := desc_y_ge c dp hd
  have hmaster := vertical_master c
  have hem := em_pos c
  linarith

/-- Contact sits left of map-info with a positive gap. -/
lemma sep_contact_mapInfo (c : Config) (cp mp : Rect)
    (hcp : contactPlacement c = some cp) (hmp : mapInfoPlacement c = some mp) :
    ¬ overlaps cp mp := by
  apply not_overlaps_of_left_le
  have hm := mapInfo_true_of_some c mp hmp
  have hem := em_pos c
  rw [mapInfoPlacement, if_pos hm, hcp] at hmp
  dsimp only at hmp
  obtain rfl := (Option.some.injEq _ _).mp hmp
  cases ho : c.orientation <;> dsimp only <;> ring_nf <;> linarith

/-- Description and contact never overlap: stacked in portrait, side by
side in landscape. -/
lemma sep_desc_contact (c : Config) (dp cp : Rect)
    (hd : descriptionPlacement c = some dp) (hcp : contactPlacement c = some cp) :
    ¬ overlaps dp cp := by
  have hem := em_pos c
  have hMLp : 0 < c.maxLineWidth * c.fmt.infoWidthPortion c.orientation :=
    mul_pos (maxLineWidth_pos c) (infoPortion_pos c)
  have hc := contact_true_of_some c cp hcp
  obtain ⟨n, hn, rfl⟩ := Option.map_eq_some'.mp hd
  rcases c with ⟨f, o, t, l, ct, mi, dRaw, cw, r⟩
  dsimp only at hc
  subst hc
  simp only [contactPlacement, if_true, Option.some.injEq] at hcp
  subst hcp
  have h13 := pageMargins13_eq f
  cases o with
  | portrait =>
      apply not_overlaps_of_above
      simp only [contactPlacement, if_true]
      ring_nf
      linarith
  | landscape =>
      refine not_overlaps_symm _ _ (not_overlaps_of_left_le _ _ ?_)
      simp only [contactPlacement, if_true]
      dsimp only [descriptionWidth, calcElementWidth, Config.fmt, Config.maxLineWidth,
        Config.pdfWidth, PageStyle.infoWidthPortion] at hem hMLp ⊢
      cases mi <;>
        · simp only [Bool.and_false, Bool.and_true, Bool.false_eq_true, if_false, if_true,
            bne_iff_ne, ne_eq, Bool.true_eq_false, not_false_eq_true]
          ring_nf at hMLp ⊢
          linarith

/-- Description and map-info never overlap: stacked in portrait, side by
side in landscape. -/
lemma sep_desc_mapInfo (c : Config) (dp mp : Rect)
    (hd : descriptionPlacement c = some dp) (hmp : mapInfoPlacement c = some mp) :
    ¬ overlaps dp mp := by
  have hem := em_pos c
  have hMLp : 0 < c.maxLineWidth * c.fmt.infoWidthPortion c.orientation :=
    mul_pos (maxLineWidth_pos c) (infoPortion_pos c)
  have hm := mapInfo_true_of_some c mp hmp
  obtain ⟨n, hn, rfl⟩ := Option.map_eq_some'.mp hd
  rcases c with ⟨f, o, t, l, ct, mi, dRaw, cw, r⟩
  dsimp only at hm
  subst hm
  have h13 := pageMargins13_eq f
  cases ct with
  | false =>
      simp only [mapInfoPlacement, contactPlacement, if_true, Bool.false_eq_true, if_false,
        Option.some.injEq] at hmp
      subst hmp
      cases o with
      | portrait =>
          apply not_overlaps_of_above
          simp only [contactPlacement, mapInfoPlacement, if_true, Bool.false_eq_true,
            if_false]
          ring_nf
          linarith
      | landscape =>
          refine not_overlaps_symm _ _ (not_overlaps_of_left_le _ _ ?_)
          dsimp only [descriptionWidth, calcElementWidth, Config.fmt, Config.maxLineWidth,
            Config.pdfWidth, PageStyle.infoWidthPortion] at hem hMLp ⊢
          simp only [Bool.false_and, Bool.false_eq_true, if_false, bne_iff_ne, ne_eq,
            Bool.false_eq, Bool.true_eq_false, not_false_eq_true, if_true]
          ring_nf at hMLp ⊢
          linarith
  | true =>
      simp only [mapInfoPlacement, contactPlacement, if_true, Option.some.injEq] at hmp
      subst hmp
      cases o with
      | portrait =>
          apply not_overlaps_of_above
          simp only [contactPlacement, mapInfoPlacement, if_true]
          ring_nf
          linarith
      | landscape =>
          refine not_overlaps_symm _ _ (not_overlaps_of_left_le _ _ ?_)
          dsimp only [descriptionWidth, calcElementWidth, Config.fmt, Config.maxLineWidth,
            Config.pdfWidth, PageStyle.infoWidthPortion] at hem hMLp ⊢
          simp only [contactPlacement, if_true, Bool.true_and, Bool.and_true]
          ring_nf at hMLp ⊢
          linarith

/-- The image placement top edge is the upper border in both branches. -/
lemma imgPlacement_y (c : Config) : (imgPlacement c).y = imgUpperBorder c := by
  unfold imgPlacement
  dsimp only
  split <;> rfl

/-- Upper bound on the image upper border: the title band bottom plus two
element margins. -/
lemma imgUpperBorder_le (c : Config) :
    imgUpperBorder c
      ≤ c.fmt.pageMargins0
        + titleLineHeight c.fmt * (c.fmt.titleMaxLineCount c.orientation : ℚ)
        + 2 * c.fmt.elementMargin := by
  have hem := em_pos c
  have hA : 0 ≤ titleLineHeight c.fmt * (c.fmt.titleMaxLineCount c.orientation : ℚ) :=
    mul_nonneg (tLH_pos c).le (Nat.cast_nonneg _)
  unfold imgUpperBorder
  cases ht : titlePlacement c with
  | some tp =>
      have := title_bottom_eq c tp ht
      dsimp only
      linarith
  | none =>
      cases hl : logoPlacement c with
      | some lp =>
          have := logo_bottom_le c lp hl
          dsimp only
          linarith
      | none =>
          dsimp only
          linarith

/-- The title bottom stays above the image upper border. -/
lemma title_below_imgUpper (c : Config) (tp : Rect)
    (ht : titlePlacement c = some tp) :
    tp.y + tp.height ≤ imgUpperBorder c := by
  have hem := em_pos c
  unfold imgUpperBorder
  rw [ht]
  dsimp only
  linarith

/-- The logo bottom stays above the image upper border. -/
lemma logo_below_imgUpper (c : Config) (lp : Rect)
    (hl : logoPlacement c = some lp) :
    lp.y + lp.height ≤ imgUpperBorder c := by
  have hem := em_pos c
  unfold imgUpperBorder
  cases ht : titlePlacement c with
  | some tp =>
      have h1 := title_bottom_eq c tp ht
      have h2 := logo_bottom_le c lp hl
      dsimp only
      linarith
  | none =>
      rw [hl]
      dsimp only
      linarith

/-- The image band is positive whenever a footer element is present. -/
lemma band_pos (c : Config)
    (h : descriptionPlacement c ≠ none ∨ contactPlacement c ≠ none ∨
      mapInfoPlacement c ≠ none) :
    0 < imgLowerBorder c - imgUpperBorder c := by
  have hub := imgUpperBorder_le c
  have hmaster := vertical_master c
  have hem := em_pos c
  have hI : 0 < infoLineHeight c.fmt * ((contactKeysCount : ℚ) + 1) :=
    mul_pos (iLH_pos c) (by positivity)
  have hdnn : (0 : ℚ) ≤ descLineHeight c.fmt * (c.fmt.descMaxLineCount c.orientation : ℚ) :=
    mul_nonneg (dLH_pos c).le (Nat.cast_nonneg _)
  unfold imgLowerBorder
  cases hd : descriptionPlacement c with
  | some dp =>
      have hge := desc_y_ge c dp hd
      dsimp only
      linarith
  | none =>
      cases hcp : contactPlacement c with
      | some cp =>
          rw [contactPlacement_some_eq c cp hcp]
          dsimp only
          linarith
      | none =>
          cases hmp : mapInfoPlacement c with
          | some mp =>
              have := (mapInfo_y_height c mp hmp).1
              dsimp only
              linarith
          | none => simp [hd, hcp, hmp] at h

/-- The image bottom edge never exceeds the lower border when the band is
positive. -/
lemma imgBottom_le (c : Config)
    (hband : 0 < imgLowerBorder c - imgUpperBorder c) :
    (imgPlacement c).y + (imgPlacement c).height ≤ imgLowerBorder c := by
  have hw := maxLineWidth_pos c
  unfold imgPlacement
  dsimp only
  by_cases hc : jsLtDiv c.imgRatio c.maxLineWidth (imgLowerBorder c - imgUpperBorder c)
      = true
  · rw [if_pos hc]
    dsimp only
    linarith
  · rw [if_neg hc]
    dsimp only
    have hc' : jsLtDiv c.imgRatio c.maxLineWidth (imgLowerBorder c - imgUpperBorder c)
        = false := by simpa using hc
    unfold jsLtDiv at hc'
    rw [if_neg hband.ne'] at hc'
    have hle : c.maxLineWidth / (imgLowerBorder c - imgUpperBorder c) ≤ c.imgRatio :=
      le_of_not_lt (of_decide_eq_false hc')
    have har : 0 < c.imgRatio := lt_of_lt_of_le (div_pos hw hband) hle
    have hwle : c.maxLineWidth ≤ c.imgRatio * (imgLowerBorder c - imgUpperBorder c) :=
      (div_le_iff₀ hband).mp hle
    have : c.maxLineWidth / c.imgRatio ≤ imgLowerBorder c - imgUpperBorder c := by
      rw [div_le_iff₀ har]
      linarith [mul_comm c.imgRatio (imgLowerBorder c - imgUpperBorder c)]
    linarith

/-- The copyright placement lies within the image placement when the
wrapped text fits. -/
lemma copyright_within (c : Config) (r : Rect)
    (hcw : copyrightPlacement c = some r)
    (h1 : r.width ≤ (imgPlacement c).width)
    (h2 : r.height ≤ (imgPlacement c).height) :
    withinRect r (imgPlacement c) := by
  obtain ⟨nw, hcw', rfl⟩ := Option.map_eq_some'.mp hcw
  unfold withinRect
  dsimp only at h1 h2 ⊢
  refine ⟨by linarith, le_of_eq (by ring), by linarith, le_of_eq (by ring)⟩

/-- Title stays above the image. -/
lemma sep_title_img (c : Config) (tp : Rect) (ht : titlePlacement c = some tp) :
    ¬ overlaps tp (imgPlacement c) := by
  apply not_overlaps_of_above
  rw [imgPlacement_y]
  exact title_below_imgUpper c tp ht

/-- Logo stays above the image. -/
lemma sep_logo_img (c : Config) (lp : Rect) (hl : logoPlacement c = some lp) :
    ¬ overlaps lp (imgPlacement c) := by
  apply not_overlaps_of_above
  rw [imgPlacement_y]
  exact logo_below_imgUpper c lp hl

/-- The image stays above the description. -/
lemma sep_img_desc (c : Config) (dp : Rect)
    (hd : descriptionPlacement c = some dp) :
    ¬ overlaps (imgPlacement c) dp := by
  have hband := band_pos c (Or.inl (by simp [hd]))
  have hb := imgBottom_le c hband
  have hem := em_pos c
  apply not_overlaps_of_above
  have hlb : imgLowerBorder c = dp.y - c.fmt.elementMargin := by
    unfold imgLowerBorder
    rw [hd]
  linarith

/-- The description top never lies below the contact top. -/
lemma desc_y_le_contact (c : Config) (dp cp : Rect)
    (hd : descriptionPlacement c = some dp) (hcp : contactPlacement c = some cp) :
    dp.y ≤ cp.y := by
  have hem := em_pos c
  have hc := contact_true_of_some c cp hcp
  obtain ⟨n, hn, rfl⟩ := Option.map_eq_some'.mp hd
  have hdl : (0 : ℚ) ≤ descLineHeight c.fmt
      * ((min n (c.fmt.descMaxLineCount c.orientation) : ℕ) : ℚ) :=
    mul_nonneg (dLH_pos c).le (Nat.cast_nonneg _)
  rcases c with ⟨f, o, t, l, ct, mi, dRaw, cw, r⟩
  dsimp only at hc
  subst hc
  simp only [contactPlacement, if_true, Option.some.injEq] at hcp
  subst hcp
  dsimp only [Config.fmt] at hem hdl
  cases o with
  | portrait =>
      simp only [contactPlacement, if_true]
      dsimp only [Config.fmt, calcTotalLineHeight] at hdl ⊢
      ring_nf
      ring_nf at hdl
      linarith
  | landscape =>
      simp only [contactPlacement, if_true]
      dsimp only [Config.fmt, calcTotalLineHeight]
      ring_nf
      linarith

/-- The description top never lies below the map-info top. -/
lemma desc_y_le_mapInfo (c : Config) (dp mp : Rect)
    (hd : descriptionPlacement c = some dp) (hmp : mapInfoPlacement c = some mp) :
    dp.y ≤ mp.y := by
  have hem := em_pos c
  have hm := mapInfo_true_of_some c mp hmp
  obtain ⟨n, hn, rfl⟩ := Option.map_eq_some'.mp hd
  have hdl : (0 : ℚ) ≤ descLineHeight c.fmt
      * ((min n (c.fmt.descMaxLineCount c.orientation) : ℕ) : ℚ) :=
    mul_nonneg (dLH_pos c).le (Nat.cast_nonneg _)
  have hmy := (mapInfo_y_height c mp hmp).1
  have hmh := (mapInfo_y_height c mp hmp).2.1
  rcases c with ⟨f, o, t, l, ct, mi, dRaw, cw, r⟩
  dsimp only at hm
  subst hm
  dsimp only [Config.fmt, Config.pdfHeight, Config.orientation] at hem hdl hmy hmh
  cases ct with
  | false =>
      cases o with
      | portrait =>
          dsimp only
          simp only [contactPlacement, Bool.false_eq_true, if_false]
          rw [hmp]
          dsimp only [Config.fmt, calcTotalLineHeight]
          ring_nf at hdl ⊢
          linarith
      | landscape =>
          dsimp only
          simp only [contactPlacement, Bool.false_eq_true, if_false]
          rw [hmp]
          dsimp only
          rw [hmy, hmh]
          dsimp only [Config.fmt, Config.pdfHeight]
          ring_nf
          linarith
  | true =>
      cases o with
      | portrait =>
          dsimp only
          simp only [contactPlacement, if_true]
          rw [hmy]
          dsimp only [Config.fmt, Config.pdfHeight, calcTotalLineHeight]
          ring_nf at hdl ⊢
          linarith
      | landscape =>
          dsimp only
          simp only [contactPlacement, if_true]
          rw [hmy]
          dsimp only [Config.fmt, Config.pdfHeight, calcTotalLineHeight]
          ring_nf
          linarith

/-- The image stays above the contact block. -/
lemma sep_img_contact (c : Config) (cp : Rect)
    (hcp : contactPlacement c = some cp) :
    ¬ overlaps (imgPlacement c) cp := by
  have hband := band_pos c (Or.inr (Or.inl (by simp [hcp])))
  have hb := imgBottom_le c hband
  have hem := em_pos c
  apply not_overlaps_of_above
  have hlb : imgLowerBorder c ≤ cp.y := by
    unfold imgLowerBorder
    cases hd : descriptionPlacement c with
    | some dp =>
        have := desc_y_le_contact c dp cp hd hcp
        dsimp only
        linarith
    | none =>
        rw [hcp]
        dsimp only
        linarith
  linarith

/-- The image stays above the map-info block. -/
lemma sep_img_mapInfo (c : Config) (mp : Rect)
    (hmp : mapInfoPlacement c = some mp) :
    ¬ overlaps (imgPlacement c) mp := by
  have hband := band_pos c (Or.inr (Or.inr (by simp [hmp])))
  have hb := imgBottom_le c hband
  have hem := em_pos c
  have hmy := (mapInfo_y_height c mp hmp).1
  apply not_overlaps_of_above
  have hlb : imgLowerBorder c ≤ mp.y := by
    unfold imgLowerBorder
    cases hd : descriptionPlacement c with
    | some dp =>
        have := desc_y_le_mapInfo c dp mp hd hmp
        dsimp only
        linarith
    | none =>
        cases hcp : contactPlacement c with
        | some cp =>
            have := contactPlacement_some_eq c cp hcp
            dsimp only
            rw [this, hmy]
            dsimp only
            linarith
        | none =>
            rw [hmp]
            dsimp only
            linarith
  linarith

/-- A portrait A4 configuration with contact and copyright present. -/
def cfgC1 : Config :=
  { format := .A4, orientation := .portrait, titleRaw := none, logoAspect := none,
    contact := true, mapInfo := false, descRaw := none, copyrightWrap := some (1, 1),
    imgRatio := 1 }

/-- Claim C1 counterexample: the copyright placement is computed inside
the bottom-right corner of the image placement and overlaps it with
positive area, so the placements are not pairwise non-overlapping. -/
theorem claimC1_counterexample :
    copyrightPlacement cfgC1
        = some { x := 69 / 10, y := 1873 / 240, width := 1, height := 23 / 240 } ∧
      imgPlacement cfgC1 = { x := 2 / 5, y := 2 / 5, width := 15 / 2, height := 15 / 2 } ∧
      overlaps { x := 69 / 10, y := 1873 / 240, width := 1, height := 23 / 240 }
        { x := 2 / 5, y := 2 / 5, width := 15 / 2, height := 15 / 2 } := by
  refine ⟨?_, ?_, ?_⟩ <;>
    norm_num [cfgC1, copyrightPlacement, imgPlacement, jsLtDiv, imgUpperBorder,
      imgLowerBorder, titlePlacement, logoPlacement, contactPlacement, mapInfoPlacement,
      descriptionPlacement, descriptionWidth, overlaps, Config.fmt, Config.maxLineWidth,
      Config.pdfWidth, Config.pdfHeight, resolvedStyle, resolveFormatting,
      hasOverrideSheet, initialStyleTables, pageStylesDefault, applyA5Overrides,
      titleLineHeight, infoLineHeight, descLineHeight, copyrightLineHeight,
      calcTotalLineHeight, calcElementWidth, PageStyle.titleMaxLineCount,
      PageStyle.titleWidthPortion, PageStyle.descMaxLineCount, PageStyle.infoWidthPortion,
      pageSizes, JSPDF_PPI, contactKeysCount]

/-- Claim C1 (amended): for every combination of present and absent
optional elements, format and orientation, the computed placements are
pairwise non-overlapping except for the copyright, which by design
overlays the bottom-right corner of the image: it lies within the image
placement.  The two provisos the code does not enforce are assumed: the
logo width leaves room for the title when both are present, and the
wrapped copyright text fits within the image placement. -/
theorem claimC1_amended (c : Config)
    (hLogoFit : ∀ tp lp, titlePlacement c = some tp → logoPlacement c = some lp →
      tp.width + lp.width ≤ c.maxLineWidth)
    (hCprFit : ∀ r, copyrightPlacement c = some r →
      r.width ≤ (imgPlacement c).width ∧ r.height ≤ (imgPlacement c).height) :
    (∀ e1 e2 : Elem, e1 ≠ e2 →
      ¬(e1 = Elem.copyright ∧ e2 = Elem.img) →
      ¬(e1 = Elem.img ∧ e2 = Elem.copyright) →
      ∀ r1 r2, placementOf c e1 = some r1 → placementOf c e2 = some r2 →
        ¬ overlaps r1 r2) ∧
    (∀ r, copyrightPlacement c = some r → withinRect r (imgPlacement c)) := by
  have hwithin : ∀ r, copyrightPlacement c = some r → withinRect r (imgPlacement c) :=
    fun r hr => copyright_within c r hr (hCprFit r hr).1 (hCprFit r hr).2
  refine ⟨?_, hwithin⟩
  intro e1 e2 hne hex1 hex2 r1 r2 h1 h2
  cases e1 with
  | title =>
      cases e2 with
      | title => exact absurd rfl hne
      | logo => exact sep_title_logo c r1 r2 h1 h2 (hLogoFit r1 r2 h1 h2)
      | contact => exact sep_title_contact c r1 r2 h1 h2
      | mapInfo => exact sep_title_mapInfo c r1 r2 h1 h2
      | description => exact sep_title_desc c r1 r2 h1 h2
      | img =>
          obtain rfl := (Option.some.injEq _ _).mp h2
          exact sep_title_img c r1 h1
      | copyright =>
          refine not_overlaps_symm _ _ ?_
          exact not_overlaps_of_within r2 (imgPlacement c) r1 (hwithin r2 h2)
            (not_overlaps_symm _ _ (sep_title_img c r1 h1))
  | logo =>
      cases e2 with
      | title =>
          exact not_overlaps_symm _ _ (sep_title_logo c r2 r1 h2 h1 (hLogoFit r2 r1 h2 h1))
      | logo => exact absurd rfl hne
      | contact => exact sep_logo_contact c r1 r2 h1 h2
      | mapInfo => exact sep_logo_mapInfo c r1 r2 h1 h2
      | description => exact sep_logo_desc c r1 r2 h1 h2
      | img =>
          obtain rfl := (Option.some.injEq _ _).mp h2
          exact sep_logo_img c r1 h1
      | copyright =>
          refine not_overlaps_symm _ _ ?_
          exact not_overlaps_of_within r2 (imgPlacement c) r1 (hwithin r2 h2)
            (not_overlaps_symm _ _ (sep_logo_img c r1 h1))
  | contact =>
      cases e2 with
      | title => exact not_overlaps_symm _ _ (sep_title_contact c r2 r1 h2 h1)
      | logo => exact not_overlaps_symm _ _ (sep_logo_contact c r2 r1 h2 h1)
      | contact => exact absurd rfl hne
      | mapInfo => exact sep_contact_mapInfo c r1 r2 h1 h2
      | description => exact not_overlaps_symm _ _ (sep_desc_contact c r2 r1 h2 h1)
      | img =>
          obtain rfl := (Option.some.injEq _ _).mp h2
          exact not_overlaps_symm _ _ (sep_img_contact c r1 h1)
      | copyright =>
          refine not_overlaps_symm _ _ ?_
          exact not_overlaps_of_within r2 (imgPlacement c) r1 (hwithin r2 h2)
            (sep_img_contact c r1 h1)
  | mapInfo =>
      cases e2 with
      | title => exact not_overlaps_symm _ _ (sep_title_mapInfo c r2 r1 h2 h1)
      | logo => exact not_overlaps_symm _ _ (sep_logo_mapInfo c r2 r1 h2 h1)
      | contact => exact not_overlaps_symm _ _ (sep_contact_mapInfo c r2 r1 h2 h1)
      | mapInfo => exact absurd rfl hne
      | description => exact not_overlaps_symm _ _ (sep_desc_mapInfo c r2 r1 h2 h1)
      | img =>
          obtain rfl := (Option.some.injEq _ _).mp h2
          exact not_overlaps_symm _ _ (sep_img_mapInfo c r1 h1)
      | copyright =>
          refine not_overlaps_symm _ _ ?_
          exact not_overlaps_of_within r2 (imgPlacement c) r1 (hwithin r2 h2)
            (sep_img_mapInfo c r1 h1)
  | description =>
      cases e2 with
      | title => exact not_overlaps_symm _ _ (sep_title_desc c r2 r1 h2 h1)
      | logo => exact not_overlaps_symm _ _ (sep_logo_desc c r2 r1 h2 h1)
      | contact => exact sep_desc_contact c r1 r2 h1 h2
      | mapInfo => exact sep_desc_mapInfo c r1 r2 h1 h2
      | description => exact absurd rfl hne
      | img =>
          obtain rfl := (Option.some.injEq _ _).mp h2
          exact not_overlaps_symm _ _ (sep_img_desc c r1 h1)
      | copyright =>
          refine not_overlaps_symm _ _ ?_
          exact not_overlaps_of_within r2 (imgPlacement c) r1 (hwithin r2 h2)
            (sep_img_desc c r1 h1)
  | img =>
      obtain rfl := (Option.some.injEq _ _).mp h1
      cases e2 with
      | title => exact not_overlaps_symm _ _ (sep_title_img c r2 h2)
      | logo => exact not_overlaps_symm _ _ (sep_logo_img c r2 h2)
      | contact => exact sep_img_contact c r2 h2
      | mapInfo => exact sep_img_mapInfo c r2 h2
      | description => exact sep_img_desc c r2 h2
      | img => exact absurd rfl hne
      | copyright => exact absurd ⟨rfl, rfl⟩ hex2
  | copyright =>
      cases e2 with
      | title =>
          exact not_overlaps_of_within r1 (imgPlacement c) r2 (hwithin r1 h1)
            (not_overlaps_symm _ _ (sep_title_img c r2 h2))
      | logo =>
          exact not_overlaps_of_within r1 (imgPlacement c) r2 (hwithin r1 h1)
            (not_overlaps_symm _ _ (sep_logo_img c r2 h2))
      | contact =>
          exact not_overlaps_of_within r1 (imgPlacement c) r2 (hwithin r1 h1)
            (sep_img_contact c r2 h2)
      | mapInfo =>
          exact not_overlaps_of_within r1 (imgPlacement c) r2 (hwithin r1 h1)
            (sep_img_mapInfo c r2 h2)
      | description =>
          exact not_overlaps_of_within r1 (imgPlacement c) r2 (hwithin r1 h1)
            (sep_img_desc c r2 h2)
      | img => exact absurd ⟨rfl, rfl⟩ hex1
      | copyright => exact absurd rfl hne

/-- A portrait A4 configuration with every element present. -/
def cfgC1w : Config :=
  { format := .A4, orientation := .portrait, titleRaw := some 1, logoAspect := some 2,
    contact := true, mapInfo := true, descRaw := some 1, copyrightWrap := some (1, 1),
    imgRatio := 1 }

/-- Witness for the amended claim C1 at a concrete configuration with all
elements present. -/
theorem claimC1_amended_witness :
    copyrightPlacement cfgC1w
        = some { x := 3955 / 576, y := 12637 / 1440, width := 1, height := 23 / 240 } ∧
      withinRect { x := 3955 / 576, y := 12637 / 1440, width := 1, height := 23 / 240 }
        (imgPlacement cfgC1w) := by
  have ht : titlePlacement cfgC1w
      = some { x := 2 / 5, y := 403 / 720, width := 71 / 20, height := 23 / 48 } := by
    norm_num [cfgC1w, titlePlacement, Config.fmt, Config.maxLineWidth, Config.pdfWidth,
      resolvedStyle, resolveFormatting, hasOverrideSheet, initialStyleTables,
      pageStylesDefault, applyA5Overrides, titleLineHeight, calcTotalLineHeight,
      calcElementWidth, PageStyle.titleMaxLineCount, PageStyle.titleWidthPortion,
      pageSizes, JSPDF_PPI]
  have hl : logoPlacement cfgC1w
      = some { x := 107 / 15, y := 19 / 36, width := 23 / 30, height := 23 / 60 } := by
    norm_num [cfgC1w, logoPlacement, Config.fmt, Config.pdfWidth, resolvedStyle,
      resolveFormatting, hasOverrideSheet, initialStyleTables, pageStylesDefault,
      applyA5Overrides, titleLineHeight, calcTotalLineHeight, PageStyle.titleMaxLineCount,
      pageSizes, JSPDF_PPI]
  have hip : imgPlacement cfgC1w
      = { x := 1249 / 2880, y := 259 / 180, width := 10703 / 1440,
          height := 10703 / 1440 } := by
    norm_num [cfgC1w, imgPlacement, jsLtDiv, imgUpperBorder, imgLowerBorder,
      titlePlacement, logoPlacement, contactPlacement, mapInfoPlacement,
      descriptionPlacement, descriptionWidth, Config.fmt, Config.maxLineWidth,
      Config.pdfWidth, Config.pdfHeight, resolvedStyle, resolveFormatting,
      hasOverrideSheet, initialStyleTables, pageStylesDefault, applyA5Overrides,
      titleLineHeight, infoLineHeight, descLineHeight, calcTotalLineHeight,
      calcElementWidth, PageStyle.titleMaxLineCount, PageStyle.titleWidthPortion,
      PageStyle.descMaxLineCount, PageStyle.infoWidthPortion, pageSizes, JSPDF_PPI,
      contactKeysCount]
  have hcw : copyrightPlacement cfgC1w
      = some { x := 3955 / 576, y := 12637 / 1440, width := 1, height := 23 / 240 } := by
    norm_num [cfgC1w, copyrightPlacement, imgPlacement, jsLtDiv, imgUpperBorder,
      imgLowerBorder, titlePlacement, logoPlacement, contactPlacement, mapInfoPlacement,
      descriptionPlacement, descriptionWidth, Config.fmt, Config.maxLineWidth,
      Config.pdfWidth, Config.pdfHeight, resolvedStyle, resolveFormatting,
      hasOverrideSheet, initialStyleTables, pageStylesDefault, applyA5Overrides,
      titleLineHeight, infoLineHeight, descLineHeight, copyrightLineHeight,
      calcTotalLineHeight, calcElementWidth, PageStyle.titleMaxLineCount,
      PageStyle.titleWidthPortion, PageStyle.descMaxLineCount, PageStyle.infoWidthPortion,
      pageSizes, JSPDF_PPI, contactKeysCount]
  have hfit : ∀ tp lp, titlePlacement cfgC1w = some tp → logoPlacement cfgC1w = some lp →
      tp.width + lp.width ≤ cfgC1w.maxLineWidth := by
    intro tp lp htp hlp
    rw [ht] at htp
    rw [hl] at hlp
    obtain rfl := (Option.some.injEq _ _).mp htp
    obtain rfl := (Option.some.injEq _ _).mp hlp
    norm_num [cfgC1w, Config.maxLineWidth, Config.pdfWidth, Config.fmt, resolvedStyle,
      resolveFormatting, hasOverrideSheet, initialStyleTables, pageStylesDefault,
      applyA5Overrides, pageSizes]
  have hcpr : ∀ r, copyrightPlacement cfgC1w = some r →
      r.width ≤ (imgPlacement cfgC1w).width ∧ r.height ≤ (imgPlacement cfgC1w).height := by
    intro r hr
    rw [hcw] at hr
    obtain rfl := (Option.some.injEq _ _).mp hr
    rw [hip]
    norm_num
  exact ⟨hcw, (claimC1_amended cfgC1w hfit hcpr).2 _ hcw⟩

/-- A single character is never equal to the two-character string the
trimming guard of `getCopyright` compares against. -/
lemma lastCharSelectorEq_sep_false (s : String) : lastCharSelectorEq s "| " = false := by
  unfold lastCharSelectorEq
  cases h : s.toList.getLast? with
  | none => rfl
  | some ch =>
      have hne : String.mk [ch] ≠ "| " := by
        intro heq
        have hdata : [ch] = ['|', ' '] := congrArg String.data heq
        simp at hdata
      simp [hne]

/-- Claim C10: for every list of attribution entries, `getCopyright`
returns exactly the deduplicated non-empty per-entry strings joined with
the separator; the trailing-separator trimming branch is unreachable
because its guard compares the single last character with the
two-character string, so no characters are ever stripped. -/
theorem claimC10_getCopyright_no_trim (entries : List AttributionEntryM) :
    getCopyright entries = getCopyrightNoTrim entries ∧
      lastCharSelectorEq (getCopyrightNoTrim entries) "| " = false := by
  have h := lastCharSelectorEq_sep_false (getCopyrightNoTrim entries)
  refine ⟨?_, h⟩
  show (if lastCharSelectorEq (getCopyrightNoTrim entries) "| " = true then
      sliceDropLastTwo (getCopyrightNoTrim entries) else getCopyrightNoTrim entries)
    = getCopyrightNoTrim entries
  simp [h]

/-- Claim C6: invoking `create` before `setup` has completed fails with
the state-not-initialized error and produces no drawing calls; after a
completed `setup` the error is never raised and the drawing calls are
issued. -/
theorem claimC6_create_requires_setup :
    create (none : CreatorState) = Except.error initMessage ∧
      (∀ cfg : Config, create (some cfg) = Except.ok (renderOps cfg)) ∧
      (∀ cfg : Config, create (some cfg) ≠ Except.error initMessage) := by
  refine ⟨rfl, fun _ => rfl, fun cfg h => ?_⟩
  simp [create] at h

/-- Claim C5 (divergence witness): the style resolution of `setup` mutates
the static tables.  Resolving the A5 format overwrites the stored default
sheet with the merged sheet (the element margin drops from 0.4 to 0.3
permanently), so a subsequent setup for a format without an override sheet
observes the polluted default instead of the original one. -/
theorem claimC5_style_resolution_mutates_default :
    initialStyleTables.defaultSheet.elementMargin = 4 / 10 ∧
      (resolveFormatting initialStyleTables Format.A4).1.elementMargin = 4 / 10 ∧
      (resolveFormatting initialStyleTables Format.A5).1.elementMargin = 3 / 10 ∧
      (resolveFormatting initialStyleTables Format.A5).2.defaultSheet.elementMargin = 3 / 10 ∧
      (resolveFormatting (resolveFormatting initialStyleTables Format.A5).2 Format.A4).1.elementMargin
        = 3 / 10 ∧
      (resolveFormatting (resolveFormatting initialStyleTables Format.A5).2 Format.A4).1
        ≠ initialStyleTables.defaultSheet := by
  refine ⟨rfl, rfl, rfl, rfl, rfl, ?_⟩
  intro h
  have := congrArg PageStyle.elementMargin h
  norm_num [resolveFormatting, initialStyleTables, hasOverrideSheet, applyA5Overrides,
    pageStylesDefault] at this

/-- Claim C9: with both contact and map-info present in landscape, the
contact block starts at the left page margin, the map-info block starts at
the right edge of the contact block plus half the element margin, and both
share the height of `contactKeysCount + 1` info line heights. -/
theorem claimC9_contact_mapInfo_landscape (c : Config)
    (ho : c.orientation = Orientation.landscape)
    (hc : c.contact = true) (hm : c.mapInfo = true) :
    ∃ cp mp, contactPlacement c = some cp ∧ mapInfoPlacement c = some mp ∧
      cp.x = c.fmt.pageMargins3 ∧
      mp.x = cp.x + cp.width + c.fmt.elementMargin / 2 ∧
      cp.height = calcTotalLineHeight (infoLineHeight c.fmt) (contactKeysCount + 1) ∧
      mp.height = cp.height := by
  have hcp : contactPlacement c = some
      { x := c.fmt.pageMargins3
        y := c.pdfHeight - c.fmt.pageMargins2
              - calcTotalLineHeight (infoLineHeight c.fmt) (contactKeysCount + 1)
        width := calcElementWidth c.maxLineWidth (c.fmt.infoWidthPortion c.orientation)
              c.fmt.elementMargin
        height := calcTotalLineHeight (infoLineHeight c.fmt) (contactKeysCount + 1) } := by
    simp [contactPlacement, hc]
  have hmp : mapInfoPlacement c = some
      { x := c.fmt.pageMargins3
              + calcElementWidth c.maxLineWidth (c.fmt.infoWidthPortion c.orientation)
                  c.fmt.elementMargin
              + c.fmt.elementMargin / 2
        y := c.pdfHeight - c.fmt.pageMargins2
              - calcTotalLineHeight (infoLineHeight c.fmt) (contactKeysCount + 1)
        width := calcElementWidth c.maxLineWidth (c.fmt.infoWidthPortion c.orientation)
              c.fmt.elementMargin
        height := calcTotalLineHeight (infoLineHeight c.fmt) (contactKeysCount + 1) } := by
    rw [mapInfoPlacement, hcp]
    simp [hm, ho]
  exact ⟨_, _, hcp, hmp, rfl, rfl, rfl, rfl⟩

/-- A landscape A4 configuration with both contact and map-info present. -/
def cfgC9 : Config :=
  { format := .A4, orientation := .landscape, titleRaw := none, logoAspect := none,
    contact := true, mapInfo := true, descRaw := none, copyrightWrap := none, imgRatio := 1 }

/-- Witness for claim C9 at a concrete configuration. -/
theorem claimC9_witness :
    cfgC9.orientation = Orientation.landscape ∧ cfgC9.contact = true ∧ cfgC9.mapInfo = true ∧
      (∃ cp mp, contactPlacement cfgC9 = some cp ∧ mapInfoPlacement cfgC9 = some mp ∧
        cp.x = cfgC9.fmt.pageMargins3 ∧
        mp.x = cp.x + cp.width + cfgC9.fmt.elementMargin / 2 ∧
        cp.height = calcTotalLineHeight (infoLineHeight cfgC9.fmt) (contactKeysCount + 1) ∧
        mp.height = cp.height) :=
  ⟨rfl, rfl, rfl, claimC9_contact_mapInfo_landscape cfgC9 rfl rfl rfl⟩

/-- A portrait A4 configuration with a title and none of description,
contact, map-info. -/
def cfgC2 : Config :=
  { format := .A4, orientation := .portrait, titleRaw := some 1, logoAspect := none,
    contact := false, mapInfo := false, descRaw := none, copyrightWrap := none,
    imgRatio := 3 / 2 }

/-- Claim C2 (divergence witness): with a title present and none of
description, contact and map-info, the image upper border is the title
bottom plus the element margin as the claim states, but the lower border
evaluates to the bottom-margin value `pageMargins[2]` itself (0.4 in)
instead of the claimed `pageHeight - pageMargins[2]` (11.3 in for A4
portrait), leaving the band with its lower bound above its upper bound. -/
theorem claimC2_image_lower_border_bug :
    imgUpperBorder cfgC2 = 259 / 180 ∧
      imgLowerBorder cfgC2 = cfgC2.fmt.pageMargins2 ∧
      cfgC2.fmt.pageMargins2 = 4 / 10 ∧
      cfgC2.pdfHeight - cfgC2.fmt.pageMargins2 = 113 / 10 ∧
      imgLowerBorder cfgC2 < imgUpperBorder cfgC2 := by
  refine ⟨?_, ?_, ?_, ?_, ?_⟩ <;>
    norm_num [cfgC2, imgUpperBorder, imgLowerBorder, titlePlacement, logoPlacement,
      contactPlacement, mapInfoPlacement, descriptionPlacement, descriptionWidth,
      Config.fmt, Config.maxLineWidth, Config.pdfWidth, Config.pdfHeight, resolvedStyle,
      resolveFormatting, hasOverrideSheet, initialStyleTables, pageStylesDefault,
      applyA5Overrides, titleLineHeight, infoLineHeight, descLineHeight,
      calcTotalLineHeight, calcElementWidth, PageStyle.titleMaxLineCount,
      PageStyle.titleWidthPortion, pageSizes, JSPDF_PPI]

/-- A portrait A4 configuration with only a one-line description and a
wide image (aspect ratio 4). -/
def cfgC3 : Config :=
  { format := .A4, orientation := .portrait, titleRaw := none, logoAspect := none,
    contact := false, mapInfo := false, descRaw := some 1, copyrightWrap := none,
    imgRatio := 4 }

/-- Claim C3 counterexample: with a wide image the width is the binding
axis and the height is shrunk, yet the image is not centered along the
free vertical axis - it stays top-aligned (zero gap above, positive gap
below). -/
theorem claimC3_counterexample :
    (imgPlacement cfgC3).width = cfgC3.maxLineWidth ∧
      (imgPlacement cfgC3).height < imgLowerBorder cfgC3 - imgUpperBorder cfgC3 ∧
      (imgPlacement cfgC3).y - imgUpperBorder cfgC3 = 0 ∧
      imgLowerBorder cfgC3 - ((imgPlacement cfgC3).y + (imgPlacement cfgC3).height) ≠ 0 := by
  refine ⟨?_, ?_, ?_, ?_⟩ <;>
    norm_num [cfgC3, imgPlacement, jsLtDiv, imgUpperBorder, imgLowerBorder, titlePlacement,
      logoPlacement, contactPlacement, mapInfoPlacement, descriptionPlacement,
      descriptionWidth, Config.fmt, Config.maxLineWidth, Config.pdfWidth, Config.pdfHeight,
      resolvedStyle, resolveFormatting, hasOverrideSheet, initialStyleTables,
      pageStylesDefault, applyA5Overrides, titleLineHeight, infoLineHeight, descLineHeight,
      calcTotalLineHeight, calcElementWidth, PageStyle.titleMaxLineCount,
      PageStyle.titleWidthPortion, PageStyle.descMaxLineCount, PageStyle.infoWidthPortion,
      pageSizes, JSPDF_PPI]

/-- Claim C3 (amended): for a positive aspect ratio and a positive
available band, the image placement preserves the ratio exactly, fits in
the band with equality on at least one axis, is horizontally centered when
the width is the adjusted axis, and stays top-aligned at the upper border
(left-aligned at the margin) when the height is the adjusted axis. -/
theorem claimC3_amended (c : Config) (hr : 0 < c.imgRatio)
    (hband : 0 < imgLowerBorder c - imgUpperBorder c) :
    (imgPlacement c).width / (imgPlacement c).height = c.imgRatio ∧
      (imgPlacement c).width ≤ c.maxLineWidth ∧
      (imgPlacement c).height ≤ imgLowerBorder c - imgUpperBorder c ∧
      ((imgPlacement c).width = c.maxLineWidth ∨
        (imgPlacement c).height = imgLowerBorder c - imgUpperBorder c) ∧
      (jsLtDiv c.imgRatio c.maxLineWidth (imgLowerBorder c - imgUpperBorder c) = true →
        (imgPlacement c).x - c.fmt.pageMargins3
          = (c.pdfWidth - c.fmt.pageMargins1) - ((imgPlacement c).x + (imgPlacement c).width)) ∧
      (jsLtDiv c.imgRatio c.maxLineWidth (imgLowerBorder c - imgUpperBorder c) = false →
        (imgPlacement c).y = imgUpperBorder c ∧ (imgPlacement c).x = c.fmt.pageMargins3) := by
  have hw := maxLineWidth_pos c
  have hm13 := pageMargins13_eq c.format
  by_cases hcond : jsLtDiv c.imgRatio c.maxLineWidth (imgLowerBorder c - imgUpperBorder c) = true
  · have key : c.imgRatio < c.maxLineWidth / (imgLowerBorder c - imgUpperBorder c) := by
      unfold jsLtDiv at hcond
      rw [if_neg hband.ne'] at hcond
      exact of_decide_eq_true hcond
    have hip : imgPlacement c =
        { x := c.pdfWidth / 2 - (imgLowerBorder c - imgUpperBorder c) * c.imgRatio / 2
          y := imgUpperBorder c
          width := (imgLowerBorder c - imgUpperBorder c) * c.imgRatio
          height := imgLowerBorder c - imgUpperBorder c } := by
      rw [imgPlacement, if_pos hcond]
    rw [hip]
    have harw : c.imgRatio * (imgLowerBorder c - imgUpperBorder c) < c.maxLineWidth :=
      (lt_div_iff₀ hband).mp key
    refine ⟨?_, by linarith, le_refl _, Or.inr rfl, fun _ => ?_, fun hfalse => ?_⟩
    · rw [mul_comm, mul_div_assoc, div_self hband.ne', mul_one]
    · show c.pdfWidth / 2 - (imgLowerBorder c - imgUpperBorder c) * c.imgRatio / 2
            - c.fmt.pageMargins3 = _
      have : c.fmt.pageMargins1 = c.fmt.pageMargins3 := hm13
      linarith [this]
    · rw [hcond] at hfalse
      simp at hfalse
  · have hcond' : jsLtDiv c.imgRatio c.maxLineWidth (imgLowerBorder c - imgUpperBorder c)
        = false := by
      simpa using hcond
    have key : c.maxLineWidth / (imgLowerBorder c - imgUpperBorder c) ≤ c.imgRatio := by
      unfold jsLtDiv at hcond'
      rw [if_neg hband.ne'] at hcond'
      have := of_decide_eq_false hcond'
      exact le_of_not_lt this
    have hip : imgPlacement c =
        { x := c.fmt.pageMargins3
          y := imgUpperBorder c
          width := c.maxLineWidth
          height := c.maxLineWidth / c.imgRatio } := by
      rw [imgPlacement, if_neg]
      rw [hcond']
      simp
    rw [hip]
    have hle : c.maxLineWidth ≤ c.imgRatio * (imgLowerBorder c - imgUpperBorder c) :=
      (div_le_iff₀ hband).mp key
    refine ⟨?_, le_refl _, ?_, Or.inl rfl, fun htrue => ?_, fun _ => ⟨rfl, rfl⟩⟩
    · rw [div_div_eq_mul_div, mul_comm, mul_div_assoc, div_self hw.ne', mul_one]
    · rw [div_le_iff₀ hr]
      linarith
    · rw [hcond'] at htrue
      simp at htrue

/-- Witness for the amended claim C3 at a concrete configuration (the
counterexample configuration has a positive band and ratio). -/
theorem claimC3_amended_witness :
    (0 < cfgC3.imgRatio ∧ 0 < imgLowerBorder cfgC3 - imgUpperBorder cfgC3) ∧
      (imgPlacement cfgC3).width / (imgPlacement cfgC3).height = cfgC3.imgRatio := by
  have hr : 0 < cfgC3.imgRatio := by norm_num [cfgC3]
  have hband : 0 < imgLowerBorder cfgC3 - imgUpperBorder cfgC3 := by
    norm_num [cfgC3, imgUpperBorder, imgLowerBorder, titlePlacement, logoPlacement,
      contactPlacement, mapInfoPlacement, descriptionPlacement, descriptionWidth,
      Config.fmt, Config.maxLineWidth, Config.pdfWidth, Config.pdfHeight, resolvedStyle,
      resolveFormatting, hasOverrideSheet, initialStyleTables, pageStylesDefault,
      applyA5Overrides, titleLineHeight, infoLineHeight, descLineHeight,
      calcTotalLineHeight, calcElementWidth, PageStyle.titleMaxLineCount,
      PageStyle.titleWidthPortion, PageStyle.descMaxLineCount, PageStyle.infoWidthPortion,
      pageSizes, JSPDF_PPI]
  exact ⟨⟨hr, hband⟩, (claimC3_amended cfgC3 hr hband).1⟩

/-- A portrait A4 configuration with a one-line title. -/
def cfgC4 : Config :=
  { format := .A4, orientation := .portrait, titleRaw := some 1, logoAspect := none,
    contact := false, mapInfo := false, descRaw := none, copyrightWrap := none, imgRatio := 1 }

/-- Claim C4 counterexample: a one-line title in portrait (cap 2) gets a
placement of height 1.5 title line heights, not the claimed
`maxLineCount` (2) line heights. -/
theorem claimC4_counterexample :
    ((titlePlacement cfgC4).map Rect.height) = some (23 / 48) ∧
      calcTotalLineHeight (titleLineHeight cfgC4.fmt)
        ((cfgC4.fmt.titleMaxLineCount cfgC4.orientation : ℕ) : ℚ) = 23 / 36 ∧
      (23 / 48 : ℚ) ≠ 23 / 36 := by
  refine ⟨?_, ?_, ?_⟩ <;>
    norm_num [cfgC4, titlePlacement, Config.fmt, Config.maxLineWidth, Config.pdfWidth,
      resolvedStyle, resolveFormatting, hasOverrideSheet, initialStyleTables,
      pageStylesDefault, applyA5Overrides, titleLineHeight, calcTotalLineHeight,
      calcElementWidth, PageStyle.titleMaxLineCount, PageStyle.titleWidthPortion,
      pageSizes, JSPDF_PPI]

/-- Claim C4 (amended): the title placement height is the mean of the
capped maximum and the actual sliced line count (in line heights); its
lower edge is the fixed value `topMargin + maxLineCount` line heights,
independent of the wrapped count; and the wrapped text band is vertically
centered inside that fixed-height band. -/
theorem claimC4_amended (c : Config) (n : ℕ) (hn : c.titleRaw = some n) :
    ∃ r, titlePlacement c = some r ∧
      r.height = (calcTotalLineHeight (titleLineHeight c.fmt)
            ((c.fmt.titleMaxLineCount c.orientation : ℕ) : ℚ)
          + calcTotalLineHeight (titleLineHeight c.fmt)
            ((min n (c.fmt.titleMaxLineCount c.orientation) : ℕ) : ℚ)) / 2 ∧
      r.y + r.height = c.fmt.pageMargins0
          + calcTotalLineHeight (titleLineHeight c.fmt)
            ((c.fmt.titleMaxLineCount c.orientation : ℕ) : ℚ) ∧
      r.y - c.fmt.pageMargins0
        = (c.fmt.pageMargins0 + calcTotalLineHeight (titleLineHeight c.fmt)
            ((c.fmt.titleMaxLineCount c.orientation : ℕ) : ℚ))
          - (r.y + calcTotalLineHeight (titleLineHeight c.fmt)
            ((min n (c.fmt.titleMaxLineCount c.orientation) : ℕ) : ℚ)) := by
  simp only [titlePlacement, hn, Option.map_some', Option.some.injEq]
  refine ⟨_, rfl, ?_, ?_, ?_⟩ <;> dsimp only <;> simp only [calcTotalLineHeight] <;> ring

/-- `nextPage` always resets the remaining column height to the full
column height. -/
lemma legendNextPage_remH (cfg : LegendRunConfig) (c : LegendCursor) :
    (legendNextPage cfg c).remH = (legendDims cfg).1 := by
  unfold legendNextPage
  dsimp only
  split <;> rfl

/-- Every recorded pre-placement remaining height of the legend item loop
is positive, provided the column height is. -/
lemma runLegendItems_placements_pos (cfg : LegendRunConfig)
    (hdim : 0 < (legendDims cfg).1) :
    ∀ (items : List LegendItemM) (c : LegendCursor),
      ∀ p ∈ (runLegendItems cfg c items).placements, 0 < p := by
  intro items
  induction items with
  | nil => intro c p hp; simp [runLegendItems] at hp
  | cons item rest ih =>
      intro c p hp
      have hc1 : 0 < (if c.remH ≤ 0 then legendNextPage cfg c else c).remH := by
        by_cases hneg : c.remH ≤ 0
        · rw [if_pos hneg, legendNextPage_remH]; exact hdim
        · rw [if_neg hneg]; exact lt_of_not_le hneg
      cases item with
      | iframe => simp [runLegendItems] at hp
      | style rows ib h =>
          simp only [runLegendItems, List.mem_cons] at hp
          rcases hp with rfl | hp
          · exact hc1
          · exact ih _ _ hp
      | image nh h =>
          simp only [runLegendItems, List.mem_cons] at hp
          rcases hp with rfl | hp
          · by_cases hbrk :
              imageBreakCond cfg nh (if c.remH ≤ 0 then legendNextPage cfg c else c) = true
            · rw [if_pos hbrk, legendNextPage_remH]; exact hdim
            · rw [if_neg hbrk]; exact hc1
          · exact ih _ _ hp

/-- Claim C7: before each legend item is placed, an exhausted column
(remaining height at most zero) forces a page/column break first, so no
item is placed into a column with negative remaining height; and in
two-column mode a break from the left column switches to the right half of
the same page, while a break from the right column adds a genuinely new
page. -/
theorem claimC7_legend_break_policy (cfg : LegendRunConfig)
    (hdim : 0 < (legendDims cfg).1) :
    (∀ (c : LegendCursor) (items : List LegendItemM),
        ∀ p ∈ (runLegendItems cfg c items).placements, 0 < p) ∧
      (∀ c : LegendCursor, cfg.useColumns = true → c.sideRight = false →
        (legendNextPage cfg c).sideRight = true ∧
          (legendNextPage cfg c).pageCount = c.pageCount ∧
          (legendNextPage cfg c).posX = cfg.originX + cfg.sizeW / 2 ∧
          (legendNextPage cfg c).posY = cfg.originY ∧
          (legendNextPage cfg c).remH = (legendDims cfg).1) ∧
      (∀ c : LegendCursor, c.sideRight = true →
        (legendNextPage cfg c).sideRight = false ∧
          (legendNextPage cfg c).pageCount = c.pageCount + 1 ∧
          (legendNextPage cfg c).posX = cfg.originX ∧
          (legendNextPage cfg c).posY = cfg.originY ∧
          (legendNextPage cfg c).remH = (legendDims cfg).1) := by
  refine ⟨fun c items => runLegendItems_placements_pos cfg hdim items c, ?_, ?_⟩
  · intro c hcols hside
    unfold legendNextPage
    rw [hside]
    simp [hcols]
  · intro c hside
    unfold legendNextPage
    rw [hside]
    simp

/-- A two-column legend page configuration with a positive column height
(A4 landscape page, title height 0.2). -/
def legendCfgEx : LegendRunConfig :=
  { originX := 2 / 5, originY := 1, sizeW := 117 / 10, sizeH := 83 / 10,
    useColumns := true, pageMargin1 := 2 / 5, pageMargin2 := 2 / 5,
    pageMargin3 := 2 / 5, elementMargin := 2 / 5 }

/-- Witness for claim C7 at a concrete legend configuration and item
list: the column height is positive and the first recorded placement of a
concrete run is positive. -/
theorem claimC7_witness :
    0 < (legendDims legendCfgEx).1 ∧
      0 < ((runLegendItems legendCfgEx (initialLegendCursor legendCfgEx)
        [LegendItemM.image 300 3, LegendItemM.image 300 3]).placements).headI := by
  have hdim : 0 < (legendDims legendCfgEx).1 := by norm_num [legendDims, legendCfgEx]
  refine ⟨hdim, ?_⟩
  have hmem : ((runLegendItems legendCfgEx (initialLegendCursor legendCfgEx)
      [LegendItemM.image 300 3, LegendItemM.image 300 3]).placements).headI ∈
      (runLegendItems legendCfgEx (initialLegendCursor legendCfgEx)
        [LegendItemM.image 300 3, LegendItemM.image 300 3]).placements := by
    norm_num [runLegendItems, initialLegendCursor, legendDims, legendCfgEx,
      imageBreakCond, legendNextPage, legendConsume, JSPDF_PPI, List.headI]
  exact (claimC7_legend_break_policy legendCfgEx hdim).1 _ _ _ hmem

/-- An item is kept by the `parseLegend` filter exactly when its kind is
image or style. -/
lemma printable_filter_iff (l : LegendItemM) :
    (isImageLegendItem l || isStyleLegendItem l) = true ↔
      (l.type = LegendTypeM.image ∨ l.type = LegendTypeM.style) := by
  cases l <;> simp [isImageLegendItem, isStyleLegendItem, LegendItemM.type]

/-- The legend item loop aborts with an error exactly when some item of
the list has a kind other than image or style. -/
lemma runLegendItems_err_iff (cfg : LegendRunConfig) :
    ∀ (items : List LegendItemM) (c : LegendCursor),
      (runLegendItems cfg c items).err ≠ none ↔
        ∃ it ∈ items, ¬(it.type = LegendTypeM.image ∨ it.type = LegendTypeM.style) := by
  intro items
  induction items with
  | nil => intro c; simp [runLegendItems]
  | cons item rest ih =>
      intro c
      cases item with
      | iframe =>
          refine iff_of_true (by simp [runLegendItems]) ?_
          exact ⟨LegendItemM.iframe, by simp, by simp [LegendItemM.type]⟩
      | style rows ib h =>
          simp only [runLegendItems]
          rw [ih]
          simp [LegendItemM.type]
      | image nh h =>
          simp only [runLegendItems]
          rw [ih]
          simp [LegendItemM.type]

/-- Claim C8: the legend pass aborts with an error exactly when some item
has a kind other than image or style-sample; `parseLegend` removes those
items before pagination (emitting one notification each) and drops groups
left empty, so running the paginator on any parsed group never throws;
and text-kind style rows only produce a logged warning, never an error. -/
theorem claimC8_legend_error_semantics :
    (∀ (cfg : LegendRunConfig) (c : LegendCursor) (items : List LegendItemM),
        (runLegendItems cfg c items).err ≠ none ↔
          ∃ it ∈ items, ¬(it.type = LegendTypeM.image ∨ it.type = LegendTypeM.style)) ∧
      (∀ entries : List LegendEntryM, ∀ g ∈ (parseLegend entries).1,
        (∀ it ∈ g.2, it.type = LegendTypeM.image ∨ it.type = LegendTypeM.style) ∧
          g.2 ≠ []) ∧
      (∀ entries : List LegendEntryM,
        (parseLegend entries).2.length
          = (entries.map fun e =>
              (e.legend.filter fun l =>
                !(isImageLegendItem l || isStyleLegendItem l)).length).sum) ∧
      (∀ (entries : List LegendEntryM) (cfg : LegendRunConfig) (c : LegendCursor),
        ∀ g ∈ (parseLegend entries).1, (runLegendItems cfg c g.2).err = none) ∧
      (∀ (cfg : LegendRunConfig) (c : LegendCursor) (rows : List StyleRowTypeM)
          (ib : ℕ) (h : ℚ),
        (runLegendItems cfg c [LegendItemM.style rows ib h]).err = none ∧
          (runLegendItems cfg c [LegendItemM.style rows ib h]).warnings
            = (rows.filter fun row => row == StyleRowTypeM.text).map
                fun _ => textRowWarning) := by
  have hgroups : ∀ entries : List LegendEntryM, ∀ g ∈ (parseLegend entries).1,
      (∀ it ∈ g.2, it.type = LegendTypeM.image ∨ it.type = LegendTypeM.style) ∧
        g.2 ≠ [] := by
    intro entries g hg
    simp only [parseLegend, List.mem_filter, List.mem_map] at hg
    obtain ⟨⟨e, he, rfl⟩, hne⟩ := hg
    constructor
    · intro it hit
      have := (List.mem_filter.mp hit).2
      exact (printable_filter_iff it).mp this
    · simpa using hne
  refine ⟨fun cfg c items => runLegendItems_err_iff cfg items c, hgroups, ?_, ?_, ?_⟩
  · intro entries
    show (entries.flatMap fun e =>
        (e.legend.filter fun l => !(isImageLegendItem l || isStyleLegendItem l)).map
          fun _ => e.title).length = _
    induction entries with
    | nil => rfl
    | cons e es ihe =>
        rw [List.flatMap_cons, List.length_append, List.length_map, List.map_cons,
          List.sum_cons, ihe]
  · intro entries cfg c g hg
    by_contra herr
    obtain ⟨it, hit, hbad⟩ := (runLegendItems_err_iff cfg g.2 c).mp herr
    exact hbad ((hgroups entries g hg).1 it hit)
  · intro cfg c rows ib h
    constructor <;> simp [runLegendItems]

/-- Witness for claim C8 at concrete inputs: a lone iframe item makes the
paginator abort, and parsing an entry with an iframe and an image item
keeps the image, drops the iframe with one notification, and the parsed
group runs without error. -/
theorem claimC8_witness :
    (runLegendItems legendCfgEx (initialLegendCursor legendCfgEx)
        [LegendItemM.iframe]).err ≠ none ∧
      (runLegendItems legendCfgEx (initialLegendCursor legendCfgEx)
        [LegendItemM.image 300 3]).err = none ∧
      (parseLegend [⟨"layer", [LegendItemM.iframe, LegendItemM.image 300 3]⟩]).2.length
        = 1 := by
  refine ⟨?_, ?_, ?_⟩
  · exact (claimC8_legend_error_semantics.1 legendCfgEx (initialLegendCursor legendCfgEx)
      [LegendItemM.iframe]).mpr
        ⟨LegendItemM.iframe, by simp, by simp [LegendItemM.type]⟩
  · by_contra herr
    obtain ⟨it, hit, hbad⟩ := (claimC8_legend_error_semantics.1 legendCfgEx
      (initialLegendCursor legendCfgEx) [LegendItemM.image 300 3]).mp herr
    simp at hit
    rw [hit] at hbad
    exact hbad (Or.inl rfl)
  · rw [claimC8_legend_error_semantics.2.2.1]
    simp [isImageLegendItem, isStyleLegendItem, LegendItemM.type]

/-- Witness for the amended claim C4 at a concrete configuration. -/
theorem claimC4_amended_witness :
    cfgC4.titleRaw = some 1 ∧
      ∃ r, titlePlacement cfgC4 = some r ∧
        r.height = (calcTotalLineHeight (titleLineHeight cfgC4.fmt)
              ((cfgC4.fmt.titleMaxLineCount cfgC4.orientation : ℕ) : ℚ)
            + calcTotalLineHeight (titleLineHeight cfgC4.fmt)
              ((min 1 (cfgC4.fmt.titleMaxLineCount cfgC4.orientation) : ℕ) : ℚ)) / 2 ∧
        r.y + r.height = cfgC4.fmt.pageMargins0
            + calcTotalLineHeight (titleLineHeight cfgC4.fmt)
              ((cfgC4.fmt.titleMaxLineCount cfgC4.orientation : ℕ) : ℚ) ∧
        r.y - cfgC4.fmt.pageMargins0
          = (cfgC4.fmt.pageMargins0 + calcTotalLineHeight (titleLineHeight cfgC4.fmt)
              ((cfgC4.fmt.titleMaxLineCount cfgC4.orientation : ℕ) : ℚ))
            - (r.y + calcTotalLineHeight (titleLineHeight cfgC4.fmt)
              ((min 1 (cfgC4.fmt.titleMaxLineCount cfgC4.orientation) : ℕ) : ℚ)) :=
  ⟨rfl, claimC4_amended cfgC4 1 rfl⟩

/-- Witness for claim C6 at a concrete configuration: a completed setup
makes `create` return the drawing calls, and the fresh instance errors. -/
theorem claimC6_witness :
    create (none : CreatorState) = Except.error initMessage ∧
      create (some cfgC9) = Except.ok (renderOps cfgC9) :=
  ⟨claimC6_create_requires_setup.1, claimC6_create_requires_setup.2.1 cfgC9⟩

/-- A concrete attribution entry list with a duplicate, an empty array, a
provider-less entry and a year-less entry. -/
def entriesC10 : List AttributionEntryM :=
  [⟨.single ⟨some "OSM", some "2024"⟩⟩, ⟨.single ⟨some "OSM", some "2024"⟩⟩,
   ⟨.single ⟨none, some "2020"⟩⟩, ⟨.arr []⟩, ⟨.single ⟨some "VCS", none⟩⟩]

/-- Witness for claim C10 at a concrete entry list. -/
theorem claimC10_witness :
    getCopyright entriesC10 = getCopyrightNoTrim entriesC10 ∧
      getCopyrightNoTrim entriesC10 = "@ OSM 2024 | @ VCS" :=
  ⟨(claimC10_getCopyright_no_trim entriesC10).1, by decide⟩

end MapPrint
